import Mathlib

/-!
# WDSPRx channel controller (plugins/channelrx/wdsprx/wdsprx.cpp)

A shallow embedding of the control plane of the WDSP receiver channel:
the settings snapshot, the change detection performed at the head of
`WDSPRx::applySettings`, the side effects of that function (stream rerouting,
spectrum visualizer update, baseband forwarding, reverse API push, message
pipes fanout), the payload formatter `WDSPRx::webapiFormatChannelSettings`,
the lifecycle (`start`, `stop`, `feed`, the constructor), `handleMessage`,
`setCenterFrequency`, `deserialize` and the web API update path
(`webapiSettingsPutPatch`, `webapiUpdateChannelSettings`).

Conventions of the embedding:

* The controller object is the record `WDSPRx`; every member function is a
  function from the controller state to the next controller state.
* Queues are lists, the head being the oldest message; `push` appends.
* Calls made on collaborators whose code is elsewhere (device API, network
  manager, Qt signals) are recorded in logs held by the state.
* An access that the C++ leaves undefined (a profile index past the end of the
  profile array, a call through a null baseband sink or a null thread) makes
  the embedded function return `none`.
* Member functions of classes defined outside this file of the repository
  (settings serialization, generated web API objects, serializable
  sub-objects) are parameters or carry a comment that says what is assumed.
* The settings header is not part of the excerpt: numeric settings are
  integers, text settings are strings, `QList<QString>` is `List String`.
-/

/-- One filter profile of the settings (`WDSPRxProfile`): the per-profile
fields read by `wdsprx.cpp`. -/
structure WDSPRxProfile where
  m_spanLog2 : Int
  m_highCutoff : Int
  m_lowCutoff : Int
  m_fftWindow : Int
deriving DecidableEq

/-- The settings snapshot (`WDSPRxSettings`): every member that `wdsprx.cpp`
reads or writes. The three serializable sub-objects are pointers that may be
null; their content is an uninterpreted number. -/
structure WDSPRxSettings where
  m_profiles : List WDSPRxProfile
  m_profileIndex : Nat
  m_inputFrequencyOffset : Int
  m_volume : Int
  m_audioBinaural : Bool
  m_audioFlipChannels : Bool
  m_dsb : Bool
  m_audioMute : Bool
  m_agc : Bool
  m_agcMode : Int
  m_agcGain : Int
  m_agcSlope : Int
  m_agcHangThreshold : Int
  m_rgbColor : Int
  m_title : String
  m_audioDeviceName : String
  m_streamIndex : Int
  m_useReverseAPI : Bool
  m_reverseAPIAddress : String
  m_reverseAPIPort : Int
  m_reverseAPIDeviceIndex : Int
  m_reverseAPIChannelIndex : Int
  m_workspaceIndex : Int
  m_spectrumGUI : Option Nat
  m_channelMarker : Option Nat
  m_rollupState : Option Nat
deriving DecidableEq

/-- The SSB demodulator settings object of the web API
(`SWGSDRangel::SWGSSBDemodSettings`): a field is `none` until its setter has
been called. -/
structure SWGSSBDemodSettings where
  inputFrequencyOffset : Option Int := none
  filterIndex : Option Nat := none
  spanLog2 : Option Int := none
  rfBandwidth : Option Int := none
  lowCutoff : Option Int := none
  fftWindow : Option Int := none
  volume : Option Int := none
  audioBinaural : Option Int := none
  audioFlipChannels : Option Int := none
  dsb : Option Int := none
  audioMute : Option Int := none
  agc : Option Int := none
  rgbColor : Option Int := none
  title : Option String := none
  audioDeviceName : Option String := none
  streamIndex : Option Int := none
  useReverseApi : Option Int := none
  reverseApiAddress : Option String := none
  reverseApiPort : Option Int := none
  reverseApiDeviceIndex : Option Int := none
  reverseApiChannelIndex : Option Int := none
  spectrumConfig : Option Nat := none
  channelMarker : Option Nat := none
  rollupState : Option Nat := none
deriving DecidableEq

/-- The channel settings envelope of the web API
(`SWGSDRangel::SWGChannelSettings`). -/
structure SWGChannelSettings where
  direction : Int
  originatorChannelIndex : Int
  originatorDeviceSetIndex : Int
  channelType : String
  ssbDemodSettings : SWGSSBDemodSettings
deriving DecidableEq

/-- The part of `SpectrumSettings` that `applySettings` writes (`m_ssb`,
`m_usb`); `rest` stands for all its other members. -/
structure SpectrumSettings where
  m_ssb : Bool
  m_usb : Bool
  rest : Nat
deriving DecidableEq

/-- The message `SpectrumVis::MsgConfigureSpectrumVis`. -/
structure MsgConfigureSpectrumVis where
  settings : SpectrumSettings
  force : Bool
deriving DecidableEq

/-- The spectrum visualizer owned by the channel: its current settings and its
input message queue. -/
structure SpectrumVis where
  m_settings : SpectrumSettings
  inputMessageQueue : List MsgConfigureSpectrumVis
deriving DecidableEq

/-- A message on the input queue of the baseband sink. -/
inductive BasebandMessage where
  | MsgConfigureWDSPRxBaseband (settings : WDSPRxSettings) (force : Bool)
  | DSPSignalNotification (sampleRate : Int)
deriving DecidableEq

/-- The worker (`WDSPRxBaseband`) as seen by the controller: its input message
queue, the sample blocks fed to it (a block is recorded by its length) and what
the setters called by `start` have stored in it. -/
structure WDSPRxBaseband where
  inputMessageQueue : List BasebandMessage
  fed : List Nat
  fifoLabel : Option (String × Int × Int) := none
  spectrumSinkSet : Bool := false
  channelSet : Bool := false
  messageQueueToGUISet : Bool := false
  movedToThread : Bool := false
  basebandSampleRate : Option Int := none
  audioSampleRate : Int := 0
deriving DecidableEq

/-- The thread that hosts the worker (`QThread`). Its `finished` signal is
connected to `deleteLater` of the worker and of the thread itself. -/
structure QThread where
  isRunning : Bool
deriving DecidableEq

/-- A message on the queue that leads to the GUI. -/
inductive GUIMessage where
  | MsgConfigureWDSPRx (settings : WDSPRxSettings) (force : Bool)
  | DSPSignalNotification (sampleRate : Int)
deriving DecidableEq

/-- One `ObjectPipe` registered for this channel under the "reportdemod"
topic; the queue holds the audio sample rates of the `MsgChannelDemodReport`
messages pushed on it. -/
structure ReportPipe where
  m_element : Option (List Int)
deriving DecidableEq

/-- A call made on the device API by the channel. -/
inductive DeviceAPICall where
  | removeChannelSinkAPI
  | removeChannelSink (streamIndex : Int)
  | addChannelSink (streamIndex : Int)
  | addChannelSinkAPI
deriving DecidableEq

/-- The device API: `sampleMIMO` tells whether `getSampleMIMO()` is non-null
(the device has several streams); `calls` is the log of calls received. -/
structure DeviceAPI where
  sampleMIMO : Bool
  deviceSetIndex : Int
  calls : List DeviceAPICall
deriving DecidableEq

/-- A Qt signal emitted by the channel. -/
inductive ChannelSignal where
  | streamIndexChanged (streamIndex : Int)
deriving DecidableEq

/-- One call of `webapiReverseSendSettings`: the arguments received (key list
and force flag), the target of the URL and the payload of the PATCH request. -/
structure ReverseAPIRequest where
  channelSettingsKeys : List String
  force : Bool
  address : String
  port : Int
  deviceIndex : Int
  channelIndex : Int
  payload : SWGChannelSettings
deriving DecidableEq

/-- The message `MainCore::MsgChannelSettings` pushed on a message pipe. -/
structure MsgChannelSettings where
  channelSettingsKeys : List String
  swgSettings : SWGChannelSettings
  force : Bool
deriving DecidableEq

/-- One `ObjectPipe` registered for this channel: `m_element` is the message
queue the pipe leads to, or `none` when the element is not a message queue. -/
structure ObjectPipe where
  m_element : Option (List MsgChannelSettings)
deriving DecidableEq

/-- The message `WDSPRx::MsgConfigureWDSPRx`. -/
structure MsgConfigureWDSPRx where
  settings : WDSPRxSettings
  force : Bool
deriving DecidableEq

/-- The controller (`WDSPRx`). `settingsPipes` and `reportPipes` are what the
message pipes directory returns for this channel under the "settings" and
"reportdemod" topics; `basebandSinksCreated` counts the workers created. -/
structure WDSPRx where
  m_settings : WDSPRxSettings
  m_running : Bool
  m_basebandSink : Option WDSPRxBaseband
  m_basebandSampleRate : Int
  m_spectrumVis : SpectrumVis
  m_deviceAPI : DeviceAPI
  m_indexInDeviceSet : Int
  m_inputMessageQueue : List MsgConfigureWDSPRx
  m_guiMessageQueue : Option (List GUIMessage)
  settingsPipes : List ObjectPipe
  networkRequests : List ReverseAPIRequest
  emitted : List ChannelSignal
  m_thread : Option QThread := none
  basebandSinksCreated : Nat := 0
  reportPipes : List ReportPipe := []
deriving DecidableEq

/-- A message handed to `WDSPRx::handleMessage`; `other` is any message of a
class the function does not match. -/
inductive Message where
  | MsgConfigureWDSPRx (settings : WDSPRxSettings) (force : Bool)
  | DSPSignalNotification (sampleRate : Int)
  | MsgChannelDemodQuery
  | other
deriving DecidableEq

namespace SWGSSBDemodSettings

/-- The setter `setInputFrequencyOffset`. -/
def setInputFrequencyOffset (swg : SWGSSBDemodSettings) (value : Int) : SWGSSBDemodSettings :=
  { swg with inputFrequencyOffset := some value }

/-- The setter `setFilterIndex`. -/
def setFilterIndex (swg : SWGSSBDemodSettings) (value : Nat) : SWGSSBDemodSettings :=
  { swg with filterIndex := some value }

/-- The setter `setSpanLog2`. -/
def setSpanLog2 (swg : SWGSSBDemodSettings) (value : Int) : SWGSSBDemodSettings :=
  { swg with spanLog2 := some value }

/-- The setter `setRfBandwidth`. -/
def setRfBandwidth (swg : SWGSSBDemodSettings) (value : Int) : SWGSSBDemodSettings :=
  { swg with rfBandwidth := some value }

/-- The setter `setLowCutoff`. -/
def setLowCutoff (swg : SWGSSBDemodSettings) (value : Int) : SWGSSBDemodSettings :=
  { swg with lowCutoff := some value }

/-- The setter `setVolume`. -/
def setVolume (swg : SWGSSBDemodSettings) (value : Int) : SWGSSBDemodSettings :=
  { swg with volume := some value }

/-- The setter `setAudioBinaural`. -/
def setAudioBinaural (swg : SWGSSBDemodSettings) (value : Int) : SWGSSBDemodSettings :=
  { swg with audioBinaural := some value }

/-- The setter `setAudioFlipChannels`. -/
def setAudioFlipChannels (swg : SWGSSBDemodSettings) (value : Int) : SWGSSBDemodSettings :=
  { swg with audioFlipChannels := some value }

/-- The setter `setDsb`. -/
def setDsb (swg : SWGSSBDemodSettings) (value : Int) : SWGSSBDemodSettings :=
  { swg with dsb := some value }

/-- The setter `setAudioMute`. -/
def setAudioMute (swg : SWGSSBDemodSettings) (value : Int) : SWGSSBDemodSettings :=
  { swg with audioMute := some value }

/-- The setter `setAgc`. -/
def setAgc (swg : SWGSSBDemodSettings) (value : Int) : SWGSSBDemodSettings :=
  { swg with agc := some value }

/-- The setter `setRgbColor`. -/
def setRgbColor (swg : SWGSSBDemodSettings) (value : Int) : SWGSSBDemodSettings :=
  { swg with rgbColor := some value }

/-- The setter `setTitle`. -/
def setTitle (swg : SWGSSBDemodSettings) (value : String) : SWGSSBDemodSettings :=
  { swg with title := some value }

/-- The setter `setAudioDeviceName`. -/
def setAudioDeviceName (swg : SWGSSBDemodSettings) (value : String) : SWGSSBDemodSettings :=
  { swg with audioDeviceName := some value }

/-- The setter `setStreamIndex`. -/
def setStreamIndex (swg : SWGSSBDemodSettings) (value : Int) : SWGSSBDemodSettings :=
  { swg with streamIndex := some value }

/-- The setter `setSpectrumConfig`. -/
def setSpectrumConfig (swg : SWGSSBDemodSettings) (value : Nat) : SWGSSBDemodSettings :=
  { swg with spectrumConfig := some value }

/-- The setter `setChannelMarker`. -/
def setChannelMarker (swg : SWGSSBDemodSettings) (value : Nat) : SWGSSBDemodSettings :=
  { swg with channelMarker := some value }

/-- The setter `setRollupState`. -/
def setRollupState (swg : SWGSSBDemodSettings) (value : Nat) : SWGSSBDemodSettings :=
  { swg with rollupState := some value }

/-- The setter `setFftWindow`. -/
def setFftWindow (swg : SWGSSBDemodSettings) (value : Int) : SWGSSBDemodSettings :=
  { swg with fftWindow := some value }

/-- The setter `setUseReverseApi`. -/
def setUseReverseApi (swg : SWGSSBDemodSettings) (value : Int) : SWGSSBDemodSettings :=
  { swg with useReverseApi := some value }

/-- The setter `setReverseApiAddress`. -/
def setReverseApiAddress (swg : SWGSSBDemodSettings) (value : String) : SWGSSBDemodSettings :=
  { swg with reverseApiAddress := some value }

/-- The setter `setReverseApiPort`. -/
def setReverseApiPort (swg : SWGSSBDemodSettings) (value : Int) : SWGSSBDemodSettings :=
  { swg with reverseApiPort := some value }

/-- The setter `setReverseApiDeviceIndex`. -/
def setReverseApiDeviceIndex (swg : SWGSSBDemodSettings) (value : Int) : SWGSSBDemodSettings :=
  { swg with reverseApiDeviceIndex := some value }

/-- The setter `setReverseApiChannelIndex`. -/
def setReverseApiChannelIndex (swg : SWGSSBDemodSettings) (value : Int) : SWGSSBDemodSettings :=
  { swg with reverseApiChannelIndex := some value }

/-- The getter `getInputFrequencyOffset`; a field that was never set reads as the value
left by `init()`. -/
def getInputFrequencyOffset (swg : SWGSSBDemodSettings) : Int :=
  swg.inputFrequencyOffset.getD 0

/-- The getter `getFilterIndex`; a field that was never set reads as the value
left by `init()`. -/
def getFilterIndex (swg : SWGSSBDemodSettings) : Nat :=
  swg.filterIndex.getD 0

/-- The getter `getSpanLog2`; a field that was never set reads as the value
left by `init()`. -/
def getSpanLog2 (swg : SWGSSBDemodSettings) : Int :=
  swg.spanLog2.getD 0

/-- The getter `getRfBandwidth`; a field that was never set reads as the value
left by `init()`. -/
def getRfBandwidth (swg : SWGSSBDemodSettings) : Int :=
  swg.rfBandwidth.getD 0

/-- The getter `getLowCutoff`; a field that was never set reads as the value
left by `init()`. -/
def getLowCutoff (swg : SWGSSBDemodSettings) : Int :=
  swg.lowCutoff.getD 0

/-- The getter `getFftWindow`; a field that was never set reads as the value
left by `init()`. -/
def getFftWindow (swg : SWGSSBDemodSettings) : Int :=
  swg.fftWindow.getD 0

/-- The getter `getVolume`; a field that was never set reads as the value
left by `init()`. -/
def getVolume (swg : SWGSSBDemodSettings) : Int :=
  swg.volume.getD 0

/-- The getter `getAudioBinaural`; a field that was never set reads as the value
left by `init()`. -/
def getAudioBinaural (swg : SWGSSBDemodSettings) : Int :=
  swg.audioBinaural.getD 0

/-- The getter `getAudioFlipChannels`; a field that was never set reads as the value
left by `init()`. -/
def getAudioFlipChannels (swg : SWGSSBDemodSettings) : Int :=
  swg.audioFlipChannels.getD 0

/-- The getter `getDsb`; a field that was never set reads as the value
left by `init()`. -/
def getDsb (swg : SWGSSBDemodSettings) : Int :=
  swg.dsb.getD 0

/-- The getter `getAudioMute`; a field that was never set reads as the value
left by `init()`. -/
def getAudioMute (swg : SWGSSBDemodSettings) : Int :=
  swg.audioMute.getD 0

/-- The getter `getAgc`; a field that was never set reads as the value
left by `init()`. -/
def getAgc (swg : SWGSSBDemodSettings) : Int :=
  swg.agc.getD 0

/-- The getter `getRgbColor`; a field that was never set reads as the value
left by `init()`. -/
def getRgbColor (swg : SWGSSBDemodSettings) : Int :=
  swg.rgbColor.getD 0

/-- The getter `getTitle`; a field that was never set reads as the value
left by `init()`. -/
def getTitle (swg : SWGSSBDemodSettings) : String :=
  swg.title.getD ""

/-- The getter `getAudioDeviceName`; a field that was never set reads as the value
left by `init()`. -/
def getAudioDeviceName (swg : SWGSSBDemodSettings) : String :=
  swg.audioDeviceName.getD ""

/-- The getter `getStreamIndex`; a field that was never set reads as the value
left by `init()`. -/
def getStreamIndex (swg : SWGSSBDemodSettings) : Int :=
  swg.streamIndex.getD 0

/-- The getter `getUseReverseApi`; a field that was never set reads as the value
left by `init()`. -/
def getUseReverseApi (swg : SWGSSBDemodSettings) : Int :=
  swg.useReverseApi.getD 0

/-- The getter `getReverseApiAddress`; a field that was never set reads as the value
left by `init()`. -/
def getReverseApiAddress (swg : SWGSSBDemodSettings) : String :=
  swg.reverseApiAddress.getD ""

/-- The getter `getReverseApiPort`; a field that was never set reads as the value
left by `init()`. -/
def getReverseApiPort (swg : SWGSSBDemodSettings) : Int :=
  swg.reverseApiPort.getD 0

/-- The getter `getReverseApiDeviceIndex`; a field that was never set reads as the value
left by `init()`. -/
def getReverseApiDeviceIndex (swg : SWGSSBDemodSettings) : Int :=
  swg.reverseApiDeviceIndex.getD 0

/-- The getter `getReverseApiChannelIndex`; a field that was never set reads as the value
left by `init()`. -/
def getReverseApiChannelIndex (swg : SWGSSBDemodSettings) : Int :=
  swg.reverseApiChannelIndex.getD 0

end SWGSSBDemodSettings

namespace WDSPRxSettings

/-- The expression `settings.m_profiles[settings.m_profileIndex]`; `none` when
the index is past the end of the array. -/
def activeProfile (settings : WDSPRxSettings) : Option WDSPRxProfile :=
  settings.m_profiles[settings.m_profileIndex]?

/-- An assignment to a member of `settings.m_profiles[settings.m_profileIndex]`;
`none` when the index is past the end of the array. -/
def updateActiveProfile (settings : WDSPRxSettings) (f : WDSPRxProfile → WDSPRxProfile) :
    Option WDSPRxSettings :=
  match settings.m_profiles[settings.m_profileIndex]? with
  | some profile =>
    some { settings with
      m_profiles := settings.m_profiles.set settings.m_profileIndex (f profile) }
  | none => none

end WDSPRxSettings

namespace WDSPRx

/-- The constant `WDSPRx::m_channelId`. -/
def m_channelId : String := "WDSPRx"

/-- Appends `key` to the key list when `cond` holds
(`if (cond) { reverseAPIKeys.append(key); }`). -/
def appendIf (cond : Bool) (key : String) (keys : List String) : List String :=
  if cond then keys ++ [key] else keys

/-- Lines 276-316 of `applySettings`: the thirteen comparisons between
`m_settings` and `settings`, each or-ed with `force`. -/
def detectKeys (m_settings settings : WDSPRxSettings) (force : Bool) :
    Option (List String) := do
  let cur ← m_settings.activeProfile
  let new ← settings.activeProfile
  let reverseAPIKeys : List String := []
  let reverseAPIKeys := appendIf
    (m_settings.m_inputFrequencyOffset != settings.m_inputFrequencyOffset || force)
    "inputFrequencyOffset" reverseAPIKeys
  let reverseAPIKeys := appendIf
    (m_settings.m_profileIndex != settings.m_profileIndex || force)
    "filterIndex" reverseAPIKeys
  let reverseAPIKeys := appendIf
    (cur.m_spanLog2 != new.m_spanLog2 || force) "spanLog2" reverseAPIKeys
  let reverseAPIKeys := appendIf
    (cur.m_highCutoff != new.m_highCutoff || force) "rfBandwidth" reverseAPIKeys
  let reverseAPIKeys := appendIf
    (cur.m_lowCutoff != new.m_lowCutoff || force) "lowCutoff" reverseAPIKeys
  let reverseAPIKeys := appendIf
    (cur.m_fftWindow != new.m_fftWindow || force) "fftWindow" reverseAPIKeys
  let reverseAPIKeys := appendIf
    (m_settings.m_volume != settings.m_volume || force) "volume" reverseAPIKeys
  let reverseAPIKeys := appendIf
    (settings.m_audioDeviceName != m_settings.m_audioDeviceName || force)
    "audioDeviceName" reverseAPIKeys
  let reverseAPIKeys := appendIf
    (m_settings.m_audioBinaural != settings.m_audioBinaural || force)
    "audioBinaural" reverseAPIKeys
  let reverseAPIKeys := appendIf
    (m_settings.m_audioFlipChannels != settings.m_audioFlipChannels || force)
    "audioFlipChannels" reverseAPIKeys
  let reverseAPIKeys := appendIf
    (m_settings.m_dsb != settings.m_dsb || force) "dsb" reverseAPIKeys
  let reverseAPIKeys := appendIf
    (m_settings.m_audioMute != settings.m_audioMute || force) "audioMute" reverseAPIKeys
  let reverseAPIKeys := appendIf
    (m_settings.m_agc != settings.m_agc || force) "agc" reverseAPIKeys
  pure reverseAPIKeys

/-- Lines 318-331 of `applySettings`: the stream index block. On a change of
stream index the key "streamIndex" is appended, and on a MIMO device the
channel is moved to the new stream, `m_settings.m_streamIndex` is overwritten
and `streamIndexChanged` is emitted. -/
def streamIndexBlock (self : WDSPRx) (settings : WDSPRxSettings)
    (reverseAPIKeys : List String) : WDSPRx × List String :=
  if self.m_settings.m_streamIndex != settings.m_streamIndex then
    let self1 :=
      if self.m_deviceAPI.sampleMIMO then
        { self with
          m_deviceAPI := { self.m_deviceAPI with
            calls := self.m_deviceAPI.calls ++
              [DeviceAPICall.removeChannelSinkAPI,
               DeviceAPICall.removeChannelSink self.m_settings.m_streamIndex,
               DeviceAPICall.addChannelSink settings.m_streamIndex,
               DeviceAPICall.addChannelSinkAPI] }
          m_settings := { self.m_settings with m_streamIndex := settings.m_streamIndex }
          emitted := self.emitted ++ [ChannelSignal.streamIndexChanged settings.m_streamIndex] }
      else self
    (self1, reverseAPIKeys ++ ["streamIndex"])
  else (self, reverseAPIKeys)

/-- The value of the local `reverseAPIKeys` of `applySettings` once line 331 is
passed: the field-tag list of the call. -/
def reverseAPIKeys (self : WDSPRx) (settings : WDSPRxSettings) (force : Bool) :
    Option (List String) := do
  let keys ← detectKeys self.m_settings settings force
  pure (streamIndexBlock self settings keys).2

/-- Lines 333-335 of `applySettings`: the test that guards the spectrum
visualizer update, `cur` and `new` being the active profiles of `m_settings`
and of `settings`. -/
def spectrumUpdateNeeded (m_settings settings : WDSPRxSettings) (cur new : WDSPRxProfile)
    (force : Bool) : Bool :=
  settings.m_dsb != m_settings.m_dsb
    || new.m_highCutoff != cur.m_highCutoff
    || new.m_lowCutoff != cur.m_lowCutoff || force

/-- Lines 333-342 of `applySettings`: the spectrum visualizer update. Both
active profiles have been read by the lines before, so they are read here ahead
of the test. -/
def spectrumBlock (self : WDSPRx) (settings : WDSPRxSettings) (force : Bool) :
    Option WDSPRx := do
  let new ← settings.activeProfile
  let cur ← self.m_settings.activeProfile
  if spectrumUpdateNeeded self.m_settings settings cur new force then
    let spectrumSettings := self.m_spectrumVis.m_settings
    let spectrumSettings := { spectrumSettings with m_ssb := !settings.m_dsb }
    let spectrumSettings := { spectrumSettings with
      m_usb := decide (new.m_lowCutoff < new.m_highCutoff) }
    let msg : MsgConfigureSpectrumVis := { settings := spectrumSettings, force := false }
    pure { self with
      m_spectrumVis := { self.m_spectrumVis with
        inputMessageQueue := self.m_spectrumVis.inputMessageQueue ++ [msg] } }
  else
    pure self

/-- Lines 344-348 of `applySettings`: forwarding to the baseband sink when
running. The call goes through `m_basebandSink`, which must not be null. -/
def basebandBlock (self : WDSPRx) (settings : WDSPRxSettings) (force : Bool) :
    Option WDSPRx :=
  if self.m_running then
    match self.m_basebandSink with
    | none => none
    | some sink =>
      some { self with
        m_basebandSink := some { sink with
          inputMessageQueue := sink.inputMessageQueue ++
            [BasebandMessage.MsgConfigureWDSPRxBaseband settings force] } }
  else
    some self

/-- The statement `if (cond) { body }` acting on the settings object under
construction. -/
def whenKey (cond : Bool) (body : SWGSSBDemodSettings → Option SWGSSBDemodSettings)
    (swg : SWGSSBDemodSettings) : Option SWGSSBDemodSettings :=
  if cond then body swg else some swg

/-- Runs a sequence of statements on the settings object under construction,
first to last. -/
def runStatements :
    List (SWGSSBDemodSettings → Option SWGSSBDemodSettings) →
    SWGSSBDemodSettings → Option SWGSSBDemodSettings
  | [], swg => some swg
  | statement :: statements, swg => (statement swg).bind (runStatements statements)

/-- Lines 717-787 of `webapiFormatChannelSettings`: the `if` statements that
fill the SSB demodulator settings object, in source order, each with the key
literal and the setter written in the source. The active profile is read
inside the statement, as in the source. A sub-object is formatted to an object
that holds its content. -/
def webapiFormatStatements (channelSettingsKeys : List String)
    (settings : WDSPRxSettings) (force : Bool) :
    List (SWGSSBDemodSettings → Option SWGSSBDemodSettings) := [
    whenKey (channelSettingsKeys.contains "inputFrequencyOffset" || force) (fun swg => do
      pure (swg.setInputFrequencyOffset settings.m_inputFrequencyOffset)),
    whenKey (channelSettingsKeys.contains "filteIndex" || force) (fun swg => do
      pure (swg.setFilterIndex settings.m_profileIndex)),
    whenKey (channelSettingsKeys.contains "spanLog2" || force) (fun swg => do
      let profile ← settings.activeProfile
      pure (swg.setSpanLog2 profile.m_spanLog2)),
    whenKey (channelSettingsKeys.contains "rfBandwidth" || force) (fun swg => do
      let profile ← settings.activeProfile
      pure (swg.setRfBandwidth profile.m_highCutoff)),
    whenKey (channelSettingsKeys.contains "lowCutoff" || force) (fun swg => do
      let profile ← settings.activeProfile
      pure (swg.setLowCutoff profile.m_lowCutoff)),
    whenKey (channelSettingsKeys.contains "fftWindow" || force) (fun swg => do
      let profile ← settings.activeProfile
      pure (swg.setLowCutoff profile.m_fftWindow)),
    whenKey (channelSettingsKeys.contains "volume" || force) (fun swg => do
      pure (swg.setVolume settings.m_volume)),
    whenKey (channelSettingsKeys.contains "audioBinaural" || force) (fun swg => do
      pure (swg.setAudioBinaural (if settings.m_audioBinaural then 1 else 0))),
    whenKey (channelSettingsKeys.contains "audioFlipChannels" || force) (fun swg => do
      pure (swg.setAudioFlipChannels (if settings.m_audioFlipChannels then 1 else 0))),
    whenKey (channelSettingsKeys.contains "dsb" || force) (fun swg => do
      pure (swg.setDsb (if settings.m_dsb then 1 else 0))),
    whenKey (channelSettingsKeys.contains "audioMute" || force) (fun swg => do
      pure (swg.setAudioMute (if settings.m_audioMute then 1 else 0))),
    whenKey (channelSettingsKeys.contains "agc" || force) (fun swg => do
      pure (swg.setAgc (if settings.m_agc then 1 else 0))),
    whenKey (channelSettingsKeys.contains "rgbColor" || force) (fun swg => do
      pure (swg.setRgbColor settings.m_rgbColor)),
    whenKey (channelSettingsKeys.contains "title" || force) (fun swg => do
      pure (swg.setTitle settings.m_title)),
    whenKey (channelSettingsKeys.contains "audioDeviceName" || force) (fun swg => do
      pure (swg.setAudioDeviceName settings.m_audioDeviceName)),
    whenKey (channelSettingsKeys.contains "streamIndex" || force) (fun swg => do
      pure (swg.setStreamIndex settings.m_streamIndex)),
    whenKey (settings.m_spectrumGUI.isSome &&
        (channelSettingsKeys.contains "spectrunConfig" || force)) (fun swg => do
      let content ← settings.m_spectrumGUI
      pure (swg.setSpectrumConfig content)),
    whenKey (settings.m_channelMarker.isSome &&
        (channelSettingsKeys.contains "channelMarker" || force)) (fun swg => do
      let content ← settings.m_channelMarker
      pure (swg.setChannelMarker content)),
    whenKey (settings.m_rollupState.isSome &&
        (channelSettingsKeys.contains "rollupState" || force)) (fun swg => do
      let content ← settings.m_rollupState
      pure (swg.setRollupState content))]

/-- Lines 703-788: `WDSPRx::webapiFormatChannelSettings` with a key list, the
formatter of the reverse API and message pipe payloads. -/
def webapiFormatChannelSettings (self : WDSPRx) (channelSettingsKeys : List String)
    (settings : WDSPRxSettings) (force : Bool) : Option SWGChannelSettings := do
  let swgSSBDemodSettings ←
    runStatements (webapiFormatStatements channelSettingsKeys settings force) {}
  pure {
    direction := 0
    originatorChannelIndex := self.m_indexInDeviceSet
    originatorDeviceSetIndex := self.m_deviceAPI.deviceSetIndex
    channelType := m_channelId
    ssbDemodSettings := swgSSBDemodSettings }

/-- Lines 651-674: `WDSPRx::webapiReverseSendSettings`. Formats the payload and
sends one PATCH request to the URL built from the reverse API members of
`settings`. -/
def webapiReverseSendSettings (self : WDSPRx) (channelSettingsKeys : List String)
    (settings : WDSPRxSettings) (force : Bool) : Option WDSPRx := do
  let swgChannelSettings ← webapiFormatChannelSettings self channelSettingsKeys settings force
  let request : ReverseAPIRequest := {
    channelSettingsKeys := channelSettingsKeys
    force := force
    address := settings.m_reverseAPIAddress
    port := settings.m_reverseAPIPort
    deviceIndex := settings.m_reverseAPIDeviceIndex
    channelIndex := settings.m_reverseAPIChannelIndex
    payload := swgChannelSettings }
  pure { self with networkRequests := self.networkRequests ++ [request] }

/-- Lines 676-701: the loop of `WDSPRx::sendChannelSettings` over the pipes. A
pipe whose element is a message queue receives one `MsgChannelSettings`. -/
def sendChannelSettingsLoop (self : WDSPRx) (channelSettingsKeys : List String)
    (settings : WDSPRxSettings) (force : Bool) : List ObjectPipe → Option (List ObjectPipe)
  | [] => some []
  | pipe :: pipes =>
    match pipe.m_element with
    | some messageQueue => do
      let swgChannelSettings ← webapiFormatChannelSettings self channelSettingsKeys settings force
      let msg : MsgChannelSettings := {
        channelSettingsKeys := channelSettingsKeys
        swgSettings := swgChannelSettings
        force := force }
      let rest ← sendChannelSettingsLoop self channelSettingsKeys settings force pipes
      pure ({ m_element := some (messageQueue ++ [msg]) } :: rest)
    | none => do
      let rest ← sendChannelSettingsLoop self channelSettingsKeys settings force pipes
      pure (pipe :: rest)

/-- Lines 676-701: `WDSPRx::sendChannelSettings`. -/
def sendChannelSettings (self : WDSPRx) (pipes : List ObjectPipe)
    (channelSettingsKeys : List String) (settings : WDSPRxSettings) (force : Bool) :
    Option WDSPRx := do
  let pipes1 ← sendChannelSettingsLoop self channelSettingsKeys settings force pipes
  pure { self with settingsPipes := pipes1 }

/-- The effect of the loop body of `sendChannelSettings` on one pipe: a pipe
that leads to a message queue has `msg` appended to that queue. -/
def pushToPipe (msg : MsgChannelSettings) (pipe : ObjectPipe) : ObjectPipe :=
  match pipe.m_element with
  | some messageQueue => { m_element := some (messageQueue ++ [msg]) }
  | none => pipe

/-- Lines 352-356 of `applySettings`: the local `fullUpdate`. -/
def fullUpdate (m_settings settings : WDSPRxSettings) : Bool :=
  ((m_settings.m_useReverseAPI != settings.m_useReverseAPI) && settings.m_useReverseAPI)
    || (m_settings.m_reverseAPIAddress != settings.m_reverseAPIAddress)
    || (m_settings.m_reverseAPIPort != settings.m_reverseAPIPort)
    || (m_settings.m_reverseAPIDeviceIndex != settings.m_reverseAPIDeviceIndex)
    || (m_settings.m_reverseAPIChannelIndex != settings.m_reverseAPIChannelIndex)

/-- Lines 350-358 of `applySettings`: the reverse API push. -/
def reverseAPIBlock (self : WDSPRx) (settings : WDSPRxSettings)
    (reverseAPIKeys : List String) (force : Bool) : Option WDSPRx :=
  if settings.m_useReverseAPI then
    webapiReverseSendSettings self reverseAPIKeys settings
      (fullUpdate self.m_settings settings || force)
  else
    some self

/-- Lines 360-365 of `applySettings`: the fanout to the "settings" pipes. -/
def pipesBlock (self : WDSPRx) (settings : WDSPRxSettings)
    (reverseAPIKeys : List String) (force : Bool) : Option WDSPRx :=
  let pipes := self.settingsPipes
  if pipes.length > 0 then
    sendChannelSettings self pipes reverseAPIKeys settings force
  else
    some self

/-- Lines 248-368: `WDSPRx::applySettings`. The debug trace at the head reads
the active profile of `settings`; the blocks then run in source order on the
state left by the previous one, and the last statement commits `settings`. -/
def applySettings (self : WDSPRx) (settings : WDSPRxSettings) (force : Bool) :
    Option WDSPRx := do
  let _ ← settings.activeProfile
  let reverseAPIKeys ← detectKeys self.m_settings settings force
  let (self, reverseAPIKeys) := streamIndexBlock self settings reverseAPIKeys
  let self ← spectrumBlock self settings force
  let self ← basebandBlock self settings force
  let self ← reverseAPIBlock self settings reverseAPIKeys force
  let self ← pipesBlock self settings reverseAPIKeys force
  pure { self with m_settings := settings }

/-- Lines 126-133: `WDSPRx::feed`. The block between `begin` and `end` is the
list `samples`; the call goes through `m_basebandSink` when running. -/
def feed (self : WDSPRx) (samples : List (Int × Int)) (positiveOnly : Bool) :
    Option WDSPRx :=
  let _ := positiveOnly
  if self.m_running then
    match self.m_basebandSink with
    | none => none
    | some sink =>
      some { self with m_basebandSink := some { sink with fed := sink.fed ++ [samples.length] } }
  else
    some self

/-- Lines 135-179: `WDSPRx::start`. A new thread and a new worker replace the
ones held; the worker receives the setter calls of lines 146-154 and 169-171,
the thread is started, the initial configuration message is pushed and the
running flag is set. -/
def start (self : WDSPRx) : WDSPRx :=
  if self.m_running then
    self
  else
    let m_thread : QThread := { isRunning := false }
    let m_basebandSink : WDSPRxBaseband := { inputMessageQueue := [], fed := [] }
    let m_basebandSink := { m_basebandSink with
      fifoLabel := some (m_channelId, self.m_deviceAPI.deviceSetIndex, self.m_indexInDeviceSet) }
    let m_basebandSink := { m_basebandSink with spectrumSinkSet := true }
    let m_basebandSink := { m_basebandSink with channelSet := true }
    let m_basebandSink := { m_basebandSink with
      messageQueueToGUISet := self.m_guiMessageQueue.isSome }
    let m_basebandSink := { m_basebandSink with movedToThread := true }
    let m_basebandSink :=
      if self.m_basebandSampleRate != 0 then
        { m_basebandSink with basebandSampleRate := some self.m_basebandSampleRate }
      else m_basebandSink
    let m_thread := { m_thread with isRunning := true }
    let msg := BasebandMessage.MsgConfigureWDSPRxBaseband self.m_settings true
    let m_basebandSink := { m_basebandSink with
      inputMessageQueue := m_basebandSink.inputMessageQueue ++ [msg] }
    { self with
      m_thread := some m_thread
      m_basebandSink := some m_basebandSink
      basebandSinksCreated := self.basebandSinksCreated + 1
      m_running := true }

/-- Lines 181-193: `WDSPRx::stop`. The running flag is cleared, then the
thread is asked to exit and waited for; the calls go through `m_thread`. -/
def stop (self : WDSPRx) : Option WDSPRx :=
  if !self.m_running then
    some self
  else
    let self := { self with m_running := false }
    match self.m_thread with
    | none => none
    | some thread => some { self with m_thread := some { thread with isRunning := false } }

/-- Modelled from the spec: `WDSPRx::getAudioSampleRate` is declared in the
channel header, which is not part of the excerpt. The report carries the audio
sample rate of the worker; it is read through `m_basebandSink` when running
and is 0 otherwise. -/
def getAudioSampleRate (self : WDSPRx) : Option Int :=
  if self.m_running then
    match self.m_basebandSink with
    | none => none
    | some sink => some sink.audioSampleRate
  else
    some 0

/-- Lines 392-413: the loop of `WDSPRx::sendSampleRateToDemodAnalyzer` over the
pipes. -/
def sendSampleRateLoop (self : WDSPRx) : List ReportPipe → Option (List ReportPipe)
  | [] => some []
  | pipe :: pipes =>
    match pipe.m_element with
    | some messageQueue => do
      let rate ← getAudioSampleRate self
      let rest ← sendSampleRateLoop self pipes
      pure ({ m_element := some (messageQueue ++ [rate]) } :: rest)
    | none => do
      let rest ← sendSampleRateLoop self pipes
      pure (pipe :: rest)

/-- Lines 392-413: `WDSPRx::sendSampleRateToDemodAnalyzer`. -/
def sendSampleRateToDemodAnalyzer (self : WDSPRx) : Option WDSPRx :=
  let pipes := self.reportPipes
  if pipes.length > 0 then do
    let pipes1 ← sendSampleRateLoop self pipes
    pure { self with reportPipes := pipes1 }
  else
    some self

/-- Lines 195-233: `WDSPRx::handleMessage`; the result is the value returned
and the next state. -/
def handleMessage (self : WDSPRx) (cmd : Message) : Option (Bool × WDSPRx) :=
  match cmd with
  | Message.MsgConfigureWDSPRx settings force => do
    let self ← applySettings self settings force
    pure (true, self)
  | Message.DSPSignalNotification sampleRate => do
    let self := { self with m_basebandSampleRate := sampleRate }
    let self ←
      (if self.m_running then
        match self.m_basebandSink with
        | none => none
        | some sink =>
          some { self with
            m_basebandSink := some { sink with
              inputMessageQueue := sink.inputMessageQueue ++
                [BasebandMessage.DSPSignalNotification sampleRate] } }
      else
        some self)
    let self :=
      match self.m_guiMessageQueue with
      | some queue =>
        { self with
          m_guiMessageQueue := some (queue ++ [GUIMessage.DSPSignalNotification sampleRate]) }
      | none => self
    pure (true, self)
  | Message.MsgChannelDemodQuery => do
    let self ← sendSampleRateToDemodAnalyzer self
    pure (true, self)
  | Message.other => some (false, self)

/-- Lines 235-246: `WDSPRx::setCenterFrequency`. -/
def setCenterFrequency (self : WDSPRx) (frequency : Int) : Option WDSPRx := do
  let settings := self.m_settings
  let settings := { settings with m_inputFrequencyOffset := frequency }
  let self ← applySettings self settings false
  match self.m_guiMessageQueue with
  | some queue =>
    pure { self with
      m_guiMessageQueue := some (queue ++ [GUIMessage.MsgConfigureWDSPRx settings false]) }
  | none => pure self

/-- Lines 54-83: the constructor `WDSPRx::WDSPRx`. The members are initialised
(no thread, no worker, not running, sample rate 0), `applySettings` is called
with the initial settings and `force = true`, and the channel registers itself
on the device API. `m_settings` is the default-constructed settings object and
`m_spectrumVis` the freshly constructed visualizer. -/
def construct (m_deviceAPI : DeviceAPI) (m_settings : WDSPRxSettings)
    (m_spectrumVis : SpectrumVis) (indexInDeviceSet : Int) : Option WDSPRx := do
  let self : WDSPRx := {
    m_settings := m_settings
    m_running := false
    m_basebandSink := none
    m_basebandSampleRate := 0
    m_spectrumVis := m_spectrumVis
    m_deviceAPI := m_deviceAPI
    m_indexInDeviceSet := indexInDeviceSet
    m_inputMessageQueue := []
    m_guiMessageQueue := none
    settingsPipes := []
    networkRequests := []
    emitted := []
    m_thread := none }
  let self ← applySettings self self.m_settings true
  pure { self with
    m_deviceAPI := { self.m_deviceAPI with
      calls := self.m_deviceAPI.calls ++
        [DeviceAPICall.addChannelSink 0, DeviceAPICall.addChannelSinkAPI] } }

/-- Lines 375-390: `WDSPRx::deserialize`. The two member functions of the
settings class it calls are defined outside the excerpt and are parameters:
`settingsDeserialize` gives the value returned by `m_settings.deserialize(data)`
and the settings it leaves, `resetToDefaults` the settings left by
`m_settings.resetToDefaults()`. -/
def deserialize
    (settingsDeserialize : WDSPRxSettings → List Nat → Bool × WDSPRxSettings)
    (resetToDefaults : WDSPRxSettings → WDSPRxSettings)
    (self : WDSPRx) (data : List Nat) : Bool × WDSPRx :=
  let result := settingsDeserialize self.m_settings data
  let self := { self with m_settings := result.2 }
  if result.1 then
    let msg : MsgConfigureWDSPRx := { settings := self.m_settings, force := true }
    (true, { self with m_inputMessageQueue := self.m_inputMessageQueue ++ [msg] })
  else
    let self := { self with m_settings := resetToDefaults self.m_settings }
    let msg : MsgConfigureWDSPRx := { settings := self.m_settings, force := true }
    (false, { self with m_inputMessageQueue := self.m_inputMessageQueue ++ [msg] })

/-- The statement `if (cond) { body }` acting on the settings being updated. -/
def whenContains (cond : Bool) (body : WDSPRxSettings → Option WDSPRxSettings)
    (settings : WDSPRxSettings) : Option WDSPRxSettings :=
  if cond then body settings else some settings

/-- Runs a sequence of statements on the settings being updated, first to
last. -/
def runUpdates :
    List (WDSPRxSettings → Option WDSPRxSettings) → WDSPRxSettings → Option WDSPRxSettings
  | [], settings => some settings
  | statement :: statements, settings => (statement settings).bind (runUpdates statements)

/-- The call `updateFrom(keys, object)` on a serializable sub-object, whose
code is outside the excerpt: the content becomes the one carried by the
request, when it carries one. -/
def updateFrom (content : Nat) (channelSettingsKeys : List String) (object : Option Nat) : Nat :=
  let _ := channelSettingsKeys
  object.getD content

/-- Lines 465-536 of `webapiUpdateChannelSettings`: the `if` statements, in
source order, each with the key literal written in the source. An assignment
to a member of the active profile goes through the profile index held by the
settings at that point. -/
def webapiUpdateStatements (channelSettingsKeys : List String)
    (response : SWGSSBDemodSettings) : List (WDSPRxSettings → Option WDSPRxSettings) := [
    whenContains (channelSettingsKeys.contains "inputFrequencyOffset") (fun settings =>
      some { settings with m_inputFrequencyOffset := response.getInputFrequencyOffset }),
    whenContains (channelSettingsKeys.contains "filterIndex") (fun settings =>
      some { settings with m_profileIndex := response.getFilterIndex }),
    whenContains (channelSettingsKeys.contains "spanLog2") (fun settings =>
      settings.updateActiveProfile (fun profile => { profile with m_spanLog2 := response.getSpanLog2 })),
    whenContains (channelSettingsKeys.contains "rfBandwidth") (fun settings =>
      settings.updateActiveProfile (fun profile => { profile with m_highCutoff := response.getRfBandwidth })),
    whenContains (channelSettingsKeys.contains "lowCutoff") (fun settings =>
      settings.updateActiveProfile (fun profile => { profile with m_lowCutoff := response.getLowCutoff })),
    whenContains (channelSettingsKeys.contains "fftWimdow") (fun settings =>
      settings.updateActiveProfile (fun profile => { profile with m_fftWindow := response.getFftWindow })),
    whenContains (channelSettingsKeys.contains "volume") (fun settings =>
      some { settings with m_volume := response.getVolume }),
    whenContains (channelSettingsKeys.contains "audioBinaural") (fun settings =>
      some { settings with m_audioBinaural := (response.getAudioBinaural != 0) }),
    whenContains (channelSettingsKeys.contains "audioFlipChannels") (fun settings =>
      some { settings with m_audioFlipChannels := (response.getAudioFlipChannels != 0) }),
    whenContains (channelSettingsKeys.contains "dsb") (fun settings =>
      some { settings with m_dsb := (response.getDsb != 0) }),
    whenContains (channelSettingsKeys.contains "audioMute") (fun settings =>
      some { settings with m_audioMute := (response.getAudioMute != 0) }),
    whenContains (channelSettingsKeys.contains "agc") (fun settings =>
      some { settings with m_agc := (response.getAgc != 0) }),
    whenContains (channelSettingsKeys.contains "rgbColor") (fun settings =>
      some { settings with m_rgbColor := response.getRgbColor }),
    whenContains (channelSettingsKeys.contains "title") (fun settings =>
      some { settings with m_title := response.getTitle }),
    whenContains (channelSettingsKeys.contains "audioDeviceName") (fun settings =>
      some { settings with m_audioDeviceName := response.getAudioDeviceName }),
    whenContains (channelSettingsKeys.contains "streamIndex") (fun settings =>
      some { settings with m_streamIndex := response.getStreamIndex }),
    whenContains (channelSettingsKeys.contains "useReverseAPI") (fun settings =>
      some { settings with m_useReverseAPI := (response.getUseReverseApi != 0) }),
    whenContains (channelSettingsKeys.contains "reverseAPIAddress") (fun settings =>
      some { settings with m_reverseAPIAddress := response.getReverseApiAddress }),
    whenContains (channelSettingsKeys.contains "reverseAPIPort") (fun settings =>
      some { settings with m_reverseAPIPort := response.getReverseApiPort }),
    whenContains (channelSettingsKeys.contains "reverseAPIDeviceIndex") (fun settings =>
      some { settings with m_reverseAPIDeviceIndex := response.getReverseApiDeviceIndex }),
    whenContains (channelSettingsKeys.contains "reverseAPIChannelIndex") (fun settings =>
      some { settings with m_reverseAPIChannelIndex := response.getReverseApiChannelIndex }),
    (fun settings =>
      whenContains (settings.m_spectrumGUI.isSome && channelSettingsKeys.contains "spectrumConfig")
        (fun settings =>
          some { settings with
            m_spectrumGUI := settings.m_spectrumGUI.map (fun content =>
              updateFrom content channelSettingsKeys response.spectrumConfig) }) settings),
    (fun settings =>
      whenContains (settings.m_channelMarker.isSome && channelSettingsKeys.contains "channelMarker")
        (fun settings =>
          some { settings with
            m_channelMarker := settings.m_channelMarker.map (fun content =>
              updateFrom content channelSettingsKeys response.channelMarker) }) settings),
    (fun settings =>
      whenContains (settings.m_rollupState.isSome && channelSettingsKeys.contains "rollupState")
        (fun settings =>
          some { settings with
            m_rollupState := settings.m_rollupState.map (fun content =>
              updateFrom content channelSettingsKeys response.rollupState) }) settings)]

/-- Lines 460-537: `WDSPRx::webapiUpdateChannelSettings`; the result is the
value left in `settings`. -/
def webapiUpdateChannelSettings (settings : WDSPRxSettings)
    (channelSettingsKeys : List String) (response : SWGSSBDemodSettings) :
    Option WDSPRxSettings :=
  runUpdates (webapiUpdateStatements channelSettingsKeys response) settings

/-- Lines 550-633: `WDSPRx::webapiFormatChannelSettings` with a response
object, the formatter of the answers of the web API: every setter is called,
the sub-objects present are formatted. -/
def webapiFormatChannelSettingsResponse (response : SWGSSBDemodSettings)
    (settings : WDSPRxSettings) : Option SWGSSBDemodSettings := do
  let response := response.setAudioMute (if settings.m_audioMute then 1 else 0)
  let response := response.setInputFrequencyOffset settings.m_inputFrequencyOffset
  let response := response.setFilterIndex settings.m_profileIndex
  let profile ← settings.activeProfile
  let response := response.setSpanLog2 profile.m_spanLog2
  let response := response.setRfBandwidth profile.m_highCutoff
  let response := response.setLowCutoff profile.m_lowCutoff
  let response := response.setFftWindow profile.m_fftWindow
  let response := response.setVolume settings.m_volume
  let response := response.setAudioBinaural (if settings.m_audioBinaural then 1 else 0)
  let response := response.setAudioFlipChannels (if settings.m_audioFlipChannels then 1 else 0)
  let response := response.setDsb (if settings.m_dsb then 1 else 0)
  let response := response.setAudioMute (if settings.m_audioMute then 1 else 0)
  let response := response.setAgc (if settings.m_agc then 1 else 0)
  let response := response.setRgbColor settings.m_rgbColor
  let response := response.setTitle settings.m_title
  let response := response.setAudioDeviceName settings.m_audioDeviceName
  let response := response.setStreamIndex settings.m_streamIndex
  let response := response.setUseReverseApi (if settings.m_useReverseAPI then 1 else 0)
  let response := response.setReverseApiAddress settings.m_reverseAPIAddress
  let response := response.setReverseApiPort settings.m_reverseAPIPort
  let response := response.setReverseApiDeviceIndex settings.m_reverseAPIDeviceIndex
  let response := response.setReverseApiChannelIndex settings.m_reverseAPIChannelIndex
  let response :=
    match settings.m_spectrumGUI with
    | some content => response.setSpectrumConfig content
    | none => response
  let response :=
    match settings.m_channelMarker with
    | some content => response.setChannelMarker content
    | none => response
  let response :=
    match settings.m_rollupState with
    | some content => response.setRollupState content
    | none => response
  pure response

/-- Lines 435-458: `WDSPRx::webapiSettingsPutPatch`; the result is the status
returned, the next state and the response as formatted. -/
def webapiSettingsPutPatch (self : WDSPRx) (force : Bool)
    (channelSettingsKeys : List String) (response : SWGSSBDemodSettings) :
    Option (Int × WDSPRx × SWGSSBDemodSettings) := do
  let settings := self.m_settings
  let settings ← webapiUpdateChannelSettings settings channelSettingsKeys response
  let msg : MsgConfigureWDSPRx := { settings := settings, force := force }
  let self := { self with m_inputMessageQueue := self.m_inputMessageQueue ++ [msg] }
  let self :=
    match self.m_guiMessageQueue with
    | some queue =>
      { self with
        m_guiMessageQueue := some (queue ++ [GUIMessage.MsgConfigureWDSPRx settings force]) }
    | none => self
  let response ← webapiFormatChannelSettingsResponse response settings
  pure (200, self, response)

/-- The lifecycle invariant: when the running flag is set, a worker is held
and the thread held is running. -/
def workerPresent (self : WDSPRx) : Prop :=
  self.m_running = true →
    self.m_basebandSink ≠ none ∧ self.m_thread = some { isRunning := true }

/-- The states reachable from a constructed controller by calls of `start`,
`stop`, `applySettings`, `handleMessage`, `feed` and `setCenterFrequency`, each
call being one with a defined result. -/
inductive Reachable : WDSPRx → Prop where
  | byConstruct (m_deviceAPI : DeviceAPI) (m_settings : WDSPRxSettings)
      (m_spectrumVis : SpectrumVis) (indexInDeviceSet : Int) (self : WDSPRx) :
      construct m_deviceAPI m_settings m_spectrumVis indexInDeviceSet = some self →
      Reachable self
  | byStart (self : WDSPRx) : Reachable self → Reachable (WDSPRx.start self)
  | byStop (self next : WDSPRx) :
      Reachable self → WDSPRx.stop self = some next → Reachable next
  | byApplySettings (self next : WDSPRx) (settings : WDSPRxSettings) (force : Bool) :
      Reachable self → WDSPRx.applySettings self settings force = some next → Reachable next
  | byHandleMessage (self next : WDSPRx) (cmd : Message) (handled : Bool) :
      Reachable self → WDSPRx.handleMessage self cmd = some (handled, next) → Reachable next
  | byFeed (self next : WDSPRx) (samples : List (Int × Int)) (positiveOnly : Bool) :
      Reachable self → WDSPRx.feed self samples positiveOnly = some next → Reachable next
  | bySetCenterFrequency (self next : WDSPRx) (frequency : Int) :
      Reachable self → WDSPRx.setCenterFrequency self frequency = some next → Reachable next

/-! ## Concrete scenario of the specification -/

/-- Scenario profile 0: cutoffs (low, high) = (300, 2700). -/
def scenarioProfile0 : WDSPRxProfile :=
  { m_spanLog2 := 3, m_highCutoff := 2700, m_lowCutoff := 300, m_fftWindow := 4 }

/-- Scenario profile 1: cutoffs (low, high) = (-2700, -300). -/
def scenarioProfile1 : WDSPRxProfile :=
  { m_spanLog2 := 3, m_highCutoff := -300, m_lowCutoff := -2700, m_fftWindow := 4 }

/-- Scenario snapshot S0: profile 0 active, DSB off, reverse API off. -/
def scenarioS0 : WDSPRxSettings where
  m_profiles := [scenarioProfile0, scenarioProfile1]
  m_profileIndex := 0
  m_inputFrequencyOffset := 0
  m_volume := 1
  m_audioBinaural := false
  m_audioFlipChannels := false
  m_dsb := false
  m_audioMute := false
  m_agc := false
  m_agcMode := 0
  m_agcGain := 0
  m_agcSlope := 0
  m_agcHangThreshold := 0
  m_rgbColor := 0
  m_title := "WDSP Receiver"
  m_audioDeviceName := "System default device"
  m_streamIndex := 0
  m_useReverseAPI := false
  m_reverseAPIAddress := "127.0.0.1"
  m_reverseAPIPort := 8888
  m_reverseAPIDeviceIndex := 0
  m_reverseAPIChannelIndex := 0
  m_workspaceIndex := 0
  m_spectrumGUI := none
  m_channelMarker := none
  m_rollupState := none

/-- Scenario snapshot S1: S0 with profile 1 active. -/
def scenarioS1 : WDSPRxSettings := { scenarioS0 with m_profileIndex := 1 }

/-- A stopped controller on a single-stream device holding `scenarioS0`, with
no subscriber. -/
def scenarioController : WDSPRx where
  m_settings := scenarioS0
  m_running := false
  m_basebandSink := none
  m_basebandSampleRate := 0
  m_spectrumVis := { m_settings := { m_ssb := true, m_usb := true, rest := 0 }, inputMessageQueue := [] }
  m_deviceAPI := { sampleMIMO := false, deviceSetIndex := 0, calls := [] }
  m_indexInDeviceSet := 0
  m_inputMessageQueue := []
  m_guiMessageQueue := none
  settingsPipes := []
  networkRequests := []
  emitted := []

/-- Scenario snapshot S0 with the reverse API enabled. -/
def mirrorS0 : WDSPRxSettings := { scenarioS0 with m_useReverseAPI := true }

/-- A stopped controller holding `mirrorS0`. -/
def mirrorController : WDSPRx := { scenarioController with m_settings := mirrorS0 }

/-- Snapshot `mirrorS0` with profile 1 active. -/
def mirrorS1 : WDSPRxSettings := { mirrorS0 with m_profileIndex := 1 }

/-- A running controller on a MIMO device holding `mirrorS0`, with an idle
worker and two pipes under the "settings" topic, the second of which does not
lead to a message queue. -/
def mimoController : WDSPRx := { mirrorController with
  m_running := true
  m_basebandSink := some { inputMessageQueue := [], fed := [] }
  m_deviceAPI := { sampleMIMO := true, deviceSetIndex := 2, calls := [] }
  settingsPipes := [{ m_element := some [] }, { m_element := none }] }

/-- Snapshot `mirrorS1` moved to stream 1. -/
def mimoCandidate : WDSPRxSettings := { mirrorS1 with m_streamIndex := 1 }

/-- A worker that has received nothing yet. -/
def idleSink : WDSPRxBaseband := { inputMessageQueue := [], fed := [] }

/-- A request that carries filter index 2, past the end of the two profiles
of the scenario. -/
def filterIndexRequest : SWGSSBDemodSettings := { filterIndex := some 2 }

/-- A request that carries FFT window 2. -/
def fftWindowRequest : SWGSSBDemodSettings := { fftWindow := some 2 }

/-- Scenario snapshot S0 whose active profile has FFT window 2. -/
def fftSource : WDSPRxSettings :=
  { scenarioS0 with
    m_profiles := [{ scenarioProfile0 with m_fftWindow := 2 }, scenarioProfile1] }

/-- A device API of a single-stream device, before any call. -/
def scenarioDeviceAPI : DeviceAPI := { sampleMIMO := false, deviceSetIndex := 0, calls := [] }

/-- A freshly constructed spectrum visualizer. -/
def scenarioSpectrumVis : SpectrumVis :=
  { m_settings := { m_ssb := false, m_usb := true, rest := 0 }, inputMessageQueue := [] }

/-- The controller that the constructor returns for the scenario device, the
snapshot S0 and a fresh visualizer: the forced `applySettings` has pushed one
message to the visualizer and the channel is registered on the device API. -/
def constructedController : WDSPRx := { scenarioController with
  m_spectrumVis := { scenarioSpectrumVis with
    inputMessageQueue := [{ settings := { m_ssb := true, m_usb := true, rest := 0 }, force := false }] }
  m_deviceAPI := { scenarioDeviceAPI with
    calls := [DeviceAPICall.addChannelSink 0, DeviceAPICall.addChannelSinkAPI] } }

/-- A stand-in for `WDSPRxSettings::deserialize`: fewer than four bytes are
rejected, anything else is read as a volume. -/
def sampleSettingsDeserialize (settings : WDSPRxSettings) (data : List Nat) :
    Bool × WDSPRxSettings :=
  if data.length < 4 then (false, settings)
  else (true, { settings with m_volume := data.length })

/-- A stand-in for `WDSPRxSettings::resetToDefaults`: the scenario snapshot S0
with the sub-objects of the settings object kept. -/
def sampleResetToDefaults (settings : WDSPRxSettings) : WDSPRxSettings :=
  { scenarioS0 with
    m_spectrumGUI := settings.m_spectrumGUI
    m_channelMarker := settings.m_channelMarker
    m_rollupState := settings.m_rollupState }

/-- Snapshot `mirrorS0` with another title, another display colour and another
FFT window in profile 1, which is not the active profile. -/
def retitledCandidate : WDSPRxSettings :=
  { mirrorS0 with
    m_title := "Renamed"
    m_rgbColor := 255
    m_profiles := [scenarioProfile0, { scenarioProfile1 with m_fftWindow := 1 }] }

/-- The envelope that `webapiFormatChannelSettings` builds for the channel,
holding an SSB demodulator settings object on which no setter was called. -/
def emptyPayload (self : WDSPRx) : SWGChannelSettings :=
  { direction := 0
    originatorChannelIndex := self.m_indexInDeviceSet
    originatorDeviceSetIndex := self.m_deviceAPI.deviceSetIndex
    channelType := m_channelId
    ssbDemodSettings := {} }

/-- Snapshot `mirrorS0` with volume 2 on stream 1. -/
def volumeCandidate : WDSPRxSettings := { mirrorS0 with m_volume := 2, m_streamIndex := 1 }

/-- The value left by the statement `if (cond) { f }` when `f` always has a
result. -/
def applyWhen (cond : Bool) (f : SWGSSBDemodSettings → SWGSSBDemodSettings)
    (swg : SWGSSBDemodSettings) : SWGSSBDemodSettings :=
  if cond then f swg else swg

/-! ## Auxiliary lemmas -/

theorem mem_appendIf (cond : Bool) (key k : String) (keys : List String) :
    k ∈ appendIf cond key keys ↔ k ∈ keys ∨ (cond = true ∧ k = key) := by
  unfold appendIf
  cases cond <;> simp

theorem activeProfile_isSome (settings : WDSPRxSettings)
    (h : settings.m_profileIndex < settings.m_profiles.length) :
    settings.activeProfile = some (settings.m_profiles.get ⟨settings.m_profileIndex, h⟩) := by
  simp [WDSPRxSettings.activeProfile, List.getElem?_eq_getElem h]

theorem streamIndexBlock_snd (self : WDSPRx) (settings : WDSPRxSettings) (keys : List String) :
    (streamIndexBlock self settings keys).2 =
      appendIf (self.m_settings.m_streamIndex != settings.m_streamIndex) "streamIndex" keys := by
  unfold streamIndexBlock appendIf
  split <;> rfl

theorem runStatements_isSome (statements : List (SWGSSBDemodSettings → Option SWGSSBDemodSettings))
    (h : ∀ statement ∈ statements, ∀ swg, ∃ swg1, statement swg = some swg1)
    (swg : SWGSSBDemodSettings) :
    ∃ swg1, runStatements statements swg = some swg1 := by
  induction statements generalizing swg with
  | nil => exact ⟨swg, rfl⟩
  | cons statement statements ih =>
    obtain ⟨swg1, h1⟩ := h statement (List.mem_cons_self _ _) swg
    obtain ⟨swg2, h2⟩ := ih (fun st hst => h st (List.mem_cons_of_mem _ hst)) swg1
    exact ⟨swg2, by simp [runStatements, h1, h2]⟩

theorem webapiFormatStatements_isSome (keys : List String)
    (settings : WDSPRxSettings) (force : Bool) (new : WDSPRxProfile)
    (hnew : settings.activeProfile = some new) :
    ∀ statement ∈ webapiFormatStatements keys settings force,
      ∀ swg, ∃ swg1, statement swg = some swg1 := by
  intro statement hmem swg
  simp only [webapiFormatStatements, List.mem_cons, List.mem_singleton, List.not_mem_nil,
    or_false] at hmem
  rcases hmem with h | h | h | h | h | h | h | h | h | h | h | h | h | h | h | h | h | h | h <;>
    subst h <;> unfold whenKey <;> split
  all_goals first
    | exact ⟨_, rfl⟩
    | (simp only [hnew, Option.pure_def, Option.bind_eq_bind, Option.some_bind]; exact ⟨_, rfl⟩)
    | (rename_i hc
       simp only [Bool.and_eq_true, Option.isSome_iff_exists] at hc
       obtain ⟨⟨content, hcontent⟩, _⟩ := hc
       simp only [hcontent, Option.pure_def, Option.bind_eq_bind, Option.some_bind]
       exact ⟨_, rfl⟩)

theorem webapiFormatChannelSettings_isSome (self : WDSPRx) (keys : List String)
    (settings : WDSPRxSettings) (force : Bool) (new : WDSPRxProfile)
    (hnew : settings.activeProfile = some new) :
    ∃ payload, webapiFormatChannelSettings self keys settings force = some payload := by
  obtain ⟨swg1, h1⟩ := runStatements_isSome (webapiFormatStatements keys settings force)
    (webapiFormatStatements_isSome keys settings force new hnew) {}
  simp only [webapiFormatChannelSettings, h1, Option.pure_def, Option.bind_eq_bind,
    Option.some_bind]
  exact ⟨_, rfl⟩

theorem webapiFormatChannelSettings_congr (self other : WDSPRx) (keys : List String)
    (settings : WDSPRxSettings) (force : Bool)
    (h1 : other.m_indexInDeviceSet = self.m_indexInDeviceSet)
    (h2 : other.m_deviceAPI.deviceSetIndex = self.m_deviceAPI.deviceSetIndex) :
    webapiFormatChannelSettings other keys settings force =
      webapiFormatChannelSettings self keys settings force := by
  simp only [webapiFormatChannelSettings, h1, h2]

theorem streamIndexBlock_fst (self : WDSPRx) (settings : WDSPRxSettings) (keys : List String) :
    (streamIndexBlock self settings keys).1 =
      { self with
        m_deviceAPI := { self.m_deviceAPI with
          calls :=
            if (self.m_settings.m_streamIndex != settings.m_streamIndex
                && self.m_deviceAPI.sampleMIMO) = true then
              self.m_deviceAPI.calls ++
                [DeviceAPICall.removeChannelSinkAPI,
                 DeviceAPICall.removeChannelSink self.m_settings.m_streamIndex,
                 DeviceAPICall.addChannelSink settings.m_streamIndex,
                 DeviceAPICall.addChannelSinkAPI]
            else self.m_deviceAPI.calls }
        m_settings := { self.m_settings with
          m_streamIndex :=
            if (self.m_settings.m_streamIndex != settings.m_streamIndex
                && self.m_deviceAPI.sampleMIMO) = true then settings.m_streamIndex
            else self.m_settings.m_streamIndex }
        emitted :=
          if (self.m_settings.m_streamIndex != settings.m_streamIndex
              && self.m_deviceAPI.sampleMIMO) = true then
            self.emitted ++ [ChannelSignal.streamIndexChanged settings.m_streamIndex]
          else self.emitted } := by
  unfold streamIndexBlock
  by_cases h : self.m_settings.m_streamIndex = settings.m_streamIndex
  · rcases self with ⟨⟨⟩, _, _, _, _, ⟨⟩, _⟩
    simp_all
  · cases hm : self.m_deviceAPI.sampleMIMO
    · rcases self with ⟨⟨⟩, _, _, _, _, ⟨⟩, _⟩
      simp_all
    · simp [h, hm]

theorem spectrumBlock_eq (self : WDSPRx) (settings : WDSPRxSettings) (force : Bool)
    (cur new : WDSPRxProfile)
    (hcur : self.m_settings.activeProfile = some cur)
    (hnew : settings.activeProfile = some new) :
    spectrumBlock self settings force =
      some { self with
        m_spectrumVis := { self.m_spectrumVis with
          inputMessageQueue :=
            if spectrumUpdateNeeded self.m_settings settings cur new force = true then
              self.m_spectrumVis.inputMessageQueue ++
                [{ settings := { self.m_spectrumVis.m_settings with
                     m_ssb := !settings.m_dsb
                     m_usb := decide (new.m_lowCutoff < new.m_highCutoff) }
                   force := false }]
            else self.m_spectrumVis.inputMessageQueue } } := by
  simp only [spectrumBlock, hcur, hnew, Option.pure_def, Option.bind_eq_bind, Option.some_bind]
  split <;> rfl

theorem basebandBlock_eq (self : WDSPRx) (settings : WDSPRxSettings) (force : Bool)
    (hsink : self.m_running = true → self.m_basebandSink ≠ none) :
    basebandBlock self settings force =
      some { self with
        m_basebandSink :=
          if self.m_running = true then
            self.m_basebandSink.map (fun sink => { sink with
              inputMessageQueue := sink.inputMessageQueue ++
                [BasebandMessage.MsgConfigureWDSPRxBaseband settings force] })
          else self.m_basebandSink } := by
  unfold basebandBlock
  split
  · rename_i hr
    cases hs : self.m_basebandSink with
    | none => exact absurd hs (hsink hr)
    | some sink => simp
  · rfl

theorem reverseAPIBlock_eq (self : WDSPRx) (settings : WDSPRxSettings) (keys : List String)
    (force : Bool) (payload : SWGChannelSettings)
    (hpayload : webapiFormatChannelSettings self keys settings
      (fullUpdate self.m_settings settings || force) = some payload) :
    reverseAPIBlock self settings keys force =
      some { self with
        networkRequests :=
          if settings.m_useReverseAPI = true then
            self.networkRequests ++
              [{ channelSettingsKeys := keys
                 force := fullUpdate self.m_settings settings || force
                 address := settings.m_reverseAPIAddress
                 port := settings.m_reverseAPIPort
                 deviceIndex := settings.m_reverseAPIDeviceIndex
                 channelIndex := settings.m_reverseAPIChannelIndex
                 payload := payload }]
          else self.networkRequests } := by
  unfold reverseAPIBlock
  split
  · simp only [webapiReverseSendSettings, hpayload, Option.pure_def, Option.bind_eq_bind,
      Option.some_bind]
  · rfl

theorem sendChannelSettingsLoop_eq (self : WDSPRx) (keys : List String)
    (settings : WDSPRxSettings) (force : Bool) (payload : SWGChannelSettings)
    (hpayload : webapiFormatChannelSettings self keys settings force = some payload)
    (pipes : List ObjectPipe) :
    sendChannelSettingsLoop self keys settings force pipes =
      some (pipes.map (pushToPipe
        { channelSettingsKeys := keys, swgSettings := payload, force := force })) := by
  induction pipes with
  | nil => rfl
  | cons pipe pipes ih =>
    unfold sendChannelSettingsLoop
    cases hq : pipe.m_element <;>
      simp [ih, hpayload, pushToPipe, hq]

theorem pipesBlock_eq (self : WDSPRx) (settings : WDSPRxSettings) (keys : List String)
    (force : Bool) (payload : SWGChannelSettings)
    (hpayload : webapiFormatChannelSettings self keys settings force = some payload) :
    pipesBlock self settings keys force =
      some { self with
        settingsPipes := self.settingsPipes.map (pushToPipe
          { channelSettingsKeys := keys, swgSettings := payload, force := force }) } := by
  unfold pipesBlock
  simp only [sendChannelSettings,
    sendChannelSettingsLoop_eq self keys settings force payload hpayload,
    Option.pure_def, Option.bind_eq_bind, Option.some_bind]
  split
  · rfl
  · rename_i h
    have : self.settingsPipes = [] := by
      cases hp : self.settingsPipes with
      | nil => rfl
      | cons a l => simp [hp] at h
    cases self
    simp_all

theorem detectKeys_isSome (m_settings settings : WDSPRxSettings) (force : Bool)
    (cur new : WDSPRxProfile)
    (hcur : m_settings.activeProfile = some cur)
    (hnew : settings.activeProfile = some new) :
    ∃ keys, detectKeys m_settings settings force = some keys := by
  simp only [detectKeys, hcur, hnew, Option.pure_def, Option.bind_eq_bind, Option.some_bind]
  exact ⟨_, rfl⟩

theorem applySettings_unfold (self : WDSPRx) (settings : WDSPRxSettings) (force : Bool) :
    applySettings self settings force =
      (settings.activeProfile.bind fun _ =>
        (detectKeys self.m_settings settings force).bind fun keys0 =>
          (spectrumBlock (streamIndexBlock self settings keys0).1 settings force).bind fun s2 =>
            (basebandBlock s2 settings force).bind fun s3 =>
              (reverseAPIBlock s3 settings (streamIndexBlock self settings keys0).2 force).bind
                fun s4 =>
                  (pipesBlock s4 settings (streamIndexBlock self settings keys0).2 force).bind
                    fun s5 => some { s5 with m_settings := settings }) := rfl

theorem applySettings_eq (self : WDSPRx) (settings : WDSPRxSettings) (force : Bool)
    (cur new : WDSPRxProfile)
    (hcur : self.m_settings.activeProfile = some cur)
    (hnew : settings.activeProfile = some new)
    (hsink : self.m_running = true → self.m_basebandSink ≠ none) :
    ∃ keys payloadR payloadP,
      reverseAPIKeys self settings force = some keys ∧
      webapiFormatChannelSettings self keys settings
        (fullUpdate self.m_settings settings || force) = some payloadR ∧
      webapiFormatChannelSettings self keys settings force = some payloadP ∧
      applySettings self settings force =
        some { (streamIndexBlock self settings []).1 with
          m_settings := settings
          m_spectrumVis := { self.m_spectrumVis with
            inputMessageQueue :=
              if spectrumUpdateNeeded self.m_settings settings cur new force = true then
                self.m_spectrumVis.inputMessageQueue ++
                  [{ settings := { self.m_spectrumVis.m_settings with
                       m_ssb := !settings.m_dsb
                       m_usb := decide (new.m_lowCutoff < new.m_highCutoff) }
                     force := false }]
              else self.m_spectrumVis.inputMessageQueue }
          m_basebandSink :=
            if self.m_running = true then
              self.m_basebandSink.map (fun sink => { sink with
                inputMessageQueue := sink.inputMessageQueue ++
                  [BasebandMessage.MsgConfigureWDSPRxBaseband settings force] })
            else self.m_basebandSink
          networkRequests :=
            if settings.m_useReverseAPI = true then
              self.networkRequests ++
                [{ channelSettingsKeys := keys
                   force := fullUpdate self.m_settings settings || force
                   address := settings.m_reverseAPIAddress
                   port := settings.m_reverseAPIPort
                   deviceIndex := settings.m_reverseAPIDeviceIndex
                   channelIndex := settings.m_reverseAPIChannelIndex
                   payload := payloadR }]
            else self.networkRequests
          settingsPipes := self.settingsPipes.map (pushToPipe
            { channelSettingsKeys := keys, swgSettings := payloadP, force := force }) } := by
  obtain ⟨keys0, hk0⟩ := detectKeys_isSome self.m_settings settings force cur new hcur hnew
  obtain ⟨payloadR, hR⟩ := webapiFormatChannelSettings_isSome self
    (streamIndexBlock self settings keys0).2 settings
    (fullUpdate self.m_settings settings || force) new hnew
  obtain ⟨payloadP, hP⟩ := webapiFormatChannelSettings_isSome self
    (streamIndexBlock self settings keys0).2 settings force new hnew
  refine ⟨(streamIndexBlock self settings keys0).2, payloadR, payloadP, ?_, hR, hP, ?_⟩
  · simp only [reverseAPIKeys, hk0, Option.pure_def, Option.bind_eq_bind, Option.some_bind]
  · rw [applySettings_unfold, hnew, hk0]
    simp only [Option.some_bind]
    rw [spectrumBlock_eq _ settings force cur new
      (by rw [streamIndexBlock_fst]; exact hcur) hnew]
    simp only [Option.some_bind]
    rw [basebandBlock_eq _ settings force (by rw [streamIndexBlock_fst]; exact hsink)]
    simp only [Option.some_bind]
    rw [reverseAPIBlock_eq _ settings _ force payloadR (by
      rw [webapiFormatChannelSettings_congr self _ _ _ _ (by rw [streamIndexBlock_fst])
        (by rw [streamIndexBlock_fst])]
      rw [streamIndexBlock_fst]
      exact hR)]
    simp only [Option.some_bind]
    rw [pipesBlock_eq _ settings _ force payloadP (by
      rw [webapiFormatChannelSettings_congr self _ _ _ _ (by rw [streamIndexBlock_fst])
        (by rw [streamIndexBlock_fst])]
      exact hP)]
    simp only [Option.some_bind]
    rw [streamIndexBlock_fst, streamIndexBlock_fst]
    rfl

theorem reverseAPIKeys_congr (self other : WDSPRx) (settings : WDSPRxSettings) (force : Bool)
    (h : other.m_settings = self.m_settings) :
    reverseAPIKeys other settings force = reverseAPIKeys self settings force := by
  simp only [reverseAPIKeys, streamIndexBlock_snd, h]

/-! ## Change detection (lines 276-331) -/

/-- C1, counterexample: with `force = true` and a candidate whose stream index
equals the current one, the field-tag list is the thirteen tags from
"inputFrequencyOffset" to "agc" and does not contain "streamIndex". -/
theorem forced_keys_omit_streamIndex :
    reverseAPIKeys scenarioController scenarioS0 true =
      some ["inputFrequencyOffset", "filterIndex", "spanLog2", "rfBandwidth", "lowCutoff",
        "fftWindow", "volume", "audioDeviceName", "audioBinaural", "audioFlipChannels",
        "dsb", "audioMute", "agc"] ∧
    ¬ ("streamIndex" ∈ ["inputFrequencyOffset", "filterIndex", "spanLog2", "rfBandwidth",
        "lowCutoff", "fftWindow", "volume", "audioDeviceName", "audioBinaural",
        "audioFlipChannels", "dsb", "audioMute", "agc"]) := by
  decide

/-- C1, amended: for snapshots whose profile index is in range, the field-tag
list computed with `force = true` is the thirteen tags from
"inputFrequencyOffset" to "agc" in declaration order, followed by
"streamIndex" exactly when the stream index of the candidate differs from the
current one. -/
theorem reverseAPIKeys_forced (self : WDSPRx) (settings : WDSPRxSettings)
    (hcur : self.m_settings.m_profileIndex < self.m_settings.m_profiles.length)
    (hnew : settings.m_profileIndex < settings.m_profiles.length) :
    reverseAPIKeys self settings true =
      some (["inputFrequencyOffset", "filterIndex", "spanLog2", "rfBandwidth", "lowCutoff",
        "fftWindow", "volume", "audioDeviceName", "audioBinaural", "audioFlipChannels",
        "dsb", "audioMute", "agc"] ++
        (if self.m_settings.m_streamIndex = settings.m_streamIndex then []
         else ["streamIndex"])) := by
  simp only [reverseAPIKeys, detectKeys, activeProfile_isSome _ hcur, activeProfile_isSome _ hnew,
    streamIndexBlock]
  by_cases h : self.m_settings.m_streamIndex = settings.m_streamIndex <;>
    simp [appendIf, h]

/-- Witness of C1 (amended): the scenario controller and a candidate on
another stream, for which "streamIndex" closes the list. -/
theorem reverseAPIKeys_forced_witness :
    scenarioController.m_settings.m_profileIndex <
      scenarioController.m_settings.m_profiles.length ∧
    mimoCandidate.m_profileIndex < mimoCandidate.m_profiles.length ∧
    reverseAPIKeys scenarioController mimoCandidate true =
      some (["inputFrequencyOffset", "filterIndex", "spanLog2", "rfBandwidth", "lowCutoff",
        "fftWindow", "volume", "audioDeviceName", "audioBinaural", "audioFlipChannels",
        "dsb", "audioMute", "agc"] ++
        (if scenarioController.m_settings.m_streamIndex = mimoCandidate.m_streamIndex then []
         else ["streamIndex"])) :=
  ⟨by decide, by decide,
    reverseAPIKeys_forced scenarioController mimoCandidate (by decide) (by decide)⟩

/-- C2: for a snapshot whose profile index is in range, the field-tag list
computed for a candidate equal to the current snapshot and `force = false` is
empty. -/
theorem reverseAPIKeys_same (self : WDSPRx)
    (hcur : self.m_settings.m_profileIndex < self.m_settings.m_profiles.length) :
    reverseAPIKeys self self.m_settings false = some [] := by
  simp [reverseAPIKeys, detectKeys, activeProfile_isSome _ hcur, streamIndexBlock, appendIf]

/-- Witness of C2 on the scenario controller. -/
theorem reverseAPIKeys_same_witness :
    scenarioController.m_settings.m_profileIndex <
      scenarioController.m_settings.m_profiles.length ∧
    reverseAPIKeys scenarioController scenarioController.m_settings false = some [] :=
  ⟨by decide, reverseAPIKeys_same scenarioController (by decide)⟩

/-- C3: with `force = false`, when the profile index of the candidate differs
from the current one and the low and high cutoffs of the active profile of the
candidate differ from those of the active profile of the current snapshot, the
field-tag list contains "filterIndex", "lowCutoff" and "rfBandwidth". -/
theorem reverseAPIKeys_profile_switch (self : WDSPRx) (settings : WDSPRxSettings)
    (cur new : WDSPRxProfile)
    (hcur : self.m_settings.activeProfile = some cur)
    (hnew : settings.activeProfile = some new)
    (hidx : settings.m_profileIndex ≠ self.m_settings.m_profileIndex)
    (hlow : new.m_lowCutoff ≠ cur.m_lowCutoff)
    (hhigh : new.m_highCutoff ≠ cur.m_highCutoff) :
    ∃ keys, reverseAPIKeys self settings false = some keys ∧
      "filterIndex" ∈ keys ∧ "lowCutoff" ∈ keys ∧ "rfBandwidth" ∈ keys := by
  simp only [reverseAPIKeys, detectKeys, hcur, hnew, streamIndexBlock_snd, Option.pure_def,
    Option.bind_eq_bind, Option.some_bind]
  refine ⟨_, rfl, ?_, ?_, ?_⟩ <;>
    simp [mem_appendIf, Ne.symm hidx, Ne.symm hlow, Ne.symm hhigh]

/-- Witness of C3: S0 with index 0 and cutoffs
(300, 2700), S1 = S0 with index 1 whose cutoffs are (-2700, -300). -/
theorem reverseAPIKeys_profile_switch_witness :
    scenarioController.m_settings.activeProfile = some scenarioProfile0 ∧
    scenarioS1.activeProfile = some scenarioProfile1 ∧
    scenarioS1.m_profileIndex ≠ scenarioController.m_settings.m_profileIndex ∧
    scenarioProfile1.m_lowCutoff ≠ scenarioProfile0.m_lowCutoff ∧
    scenarioProfile1.m_highCutoff ≠ scenarioProfile0.m_highCutoff ∧
    ∃ keys, reverseAPIKeys scenarioController scenarioS1 false = some keys ∧
      "filterIndex" ∈ keys ∧ "lowCutoff" ∈ keys ∧ "rfBandwidth" ∈ keys :=
  ⟨rfl, rfl, by decide, by decide, by decide,
    reverseAPIKeys_profile_switch scenarioController scenarioS1 scenarioProfile0 scenarioProfile1
      rfl rfl (by decide) (by decide) (by decide)⟩

/-! ## Spectrum visualizer update (lines 333-342) -/

/-- C4, counterexample: in the scenario (S0 active profile cutoffs low 300,
high 2700; S1 active profile cutoffs low -2700, high -300) the call
`applySettings(S1, false)` pushes one message to the visualizer and its
upper-sideband flag is `true`, not `false`. -/
theorem scenario_usb_flag_stays_upper :
    (applySettings scenarioController scenarioS1 false).map
      (fun self => self.m_spectrumVis.inputMessageQueue.map (fun msg => msg.settings.m_usb)) =
      some [true] := by
  decide

/-- C4, amended: when the current active profile has cutoffs (low 300, high
2700) and the active profile of the candidate has cutoffs (low -2700, high
-300), `applySettings(candidate, false)` pushes one spectrum configuration to
the visualizer; its upper-sideband flag is derived from the ordering of the
cutoffs of the active profile of the candidate (low < high), hence `true`, the
same value as the flag derived from the current active profile. -/
theorem applySettings_scenario_usb (self : WDSPRx) (settings : WDSPRxSettings)
    (cur new : WDSPRxProfile)
    (hcur : self.m_settings.activeProfile = some cur)
    (hnew : settings.activeProfile = some new)
    (hsink : self.m_running = true → self.m_basebandSink ≠ none)
    (hlow0 : cur.m_lowCutoff = 300) (hhigh0 : cur.m_highCutoff = 2700)
    (hlow1 : new.m_lowCutoff = -2700) (hhigh1 : new.m_highCutoff = -300) :
    ∃ self1 msg, applySettings self settings false = some self1 ∧
      self1.m_spectrumVis.inputMessageQueue = self.m_spectrumVis.inputMessageQueue ++ [msg] ∧
      msg.settings.m_usb = decide (new.m_lowCutoff < new.m_highCutoff) ∧
      msg.settings.m_usb = true ∧
      decide (cur.m_lowCutoff < cur.m_highCutoff) = true := by
  obtain ⟨keys, payloadR, payloadP, -, -, -, h⟩ :=
    applySettings_eq self settings false cur new hcur hnew hsink
  have hneed : spectrumUpdateNeeded self.m_settings settings cur new false = true := by
    simp [spectrumUpdateNeeded, hhigh0, hhigh1]
  refine ⟨_, { settings := { self.m_spectrumVis.m_settings with
      m_ssb := !settings.m_dsb
      m_usb := decide (new.m_lowCutoff < new.m_highCutoff) }, force := false }, h, ?_, rfl, ?_, ?_⟩
  · simp only [hneed, if_true]
  · simp [hlow1, hhigh1]
  · simp [hlow0, hhigh0]

/-- Witness of C4 (amended) on the scenario controller and S1. -/
theorem applySettings_scenario_usb_witness :
    scenarioController.m_settings.activeProfile = some scenarioProfile0 ∧
    scenarioS1.activeProfile = some scenarioProfile1 ∧
    ∃ self1 msg, applySettings scenarioController scenarioS1 false = some self1 ∧
      self1.m_spectrumVis.inputMessageQueue =
        scenarioController.m_spectrumVis.inputMessageQueue ++ [msg] ∧
      msg.settings.m_usb =
        decide (scenarioProfile1.m_lowCutoff < scenarioProfile1.m_highCutoff) ∧
      msg.settings.m_usb = true ∧
      decide (scenarioProfile0.m_lowCutoff < scenarioProfile0.m_highCutoff) = true :=
  ⟨rfl, rfl, applySettings_scenario_usb scenarioController scenarioS1
    scenarioProfile0 scenarioProfile1 rfl rfl (by decide) rfl rfl rfl rfl⟩

/-! ## Reverse API payload (lines 350-358, 651-674, 703-788) -/

/-- C5, evaluation at the failing input: current = candidate = `mirrorS0`
(reverse API enabled, active profile with FFT window 4 and low cutoff 300),
`force = true`. The one request issued has no `fftWindow` field and its
`lowCutoff` field holds 4, the FFT window. -/
theorem applySettings_force_mirror_payload :
    mirrorController.m_settings = mirrorS0 ∧
    mirrorS0.activeProfile.map (fun profile => (profile.m_fftWindow, profile.m_lowCutoff)) =
      some (4, 300) ∧
    (applySettings mirrorController mirrorS0 true).map
      (fun self => self.networkRequests.map
        (fun request => (request.payload.ssbDemodSettings.fftWindow,
          request.payload.ssbDemodSettings.lowCutoff))) =
      some [(none, some 4)] := by
  decide

/-- C6, evaluation at the failing inputs, `force = false`: the key list
["filterIndex"] leaves `filterIndex` unset; the key list ["fftWindow"] leaves
`fftWindow` unset and sets `lowCutoff` to the FFT window 4; the key list
["lowCutoff", "fftWindow"] sets `lowCutoff` to 4 and not to the low cutoff 300;
and a profile switch applied through `applySettings` sends the keys
"filterIndex", "rfBandwidth", "lowCutoff" with a payload whose `filterIndex`
is unset. -/
theorem webapiFormatChannelSettings_keys_divergence :
    (webapiFormatChannelSettings scenarioController ["filterIndex"] scenarioS0 false).map
      (fun payload => payload.ssbDemodSettings.filterIndex) = some none ∧
    (webapiFormatChannelSettings scenarioController ["fftWindow"] scenarioS0 false).map
      (fun payload => (payload.ssbDemodSettings.fftWindow, payload.ssbDemodSettings.lowCutoff)) =
      some (none, some 4) ∧
    (webapiFormatChannelSettings scenarioController ["lowCutoff", "fftWindow"] scenarioS0
      false).map (fun payload => payload.ssbDemodSettings.lowCutoff) = some (some 4) ∧
    scenarioS0.activeProfile.map (fun profile => (profile.m_fftWindow, profile.m_lowCutoff)) =
      some (4, 300) ∧
    (applySettings mirrorController mirrorS1 false).map
      (fun self => self.networkRequests.map
        (fun request => (request.channelSettingsKeys, request.force,
          request.payload.ssbDemodSettings.filterIndex))) =
      some [(["filterIndex", "rfBandwidth", "lowCutoff"], false, none)] := by
  decide

/-- C7: for a candidate with the reverse API enabled and `force = false`,
`applySettings` issues one request, formatted with the flag it records. The
flag is set when the reverse API was disabled in the current snapshot, whatever
the other fields; it is not set when the reverse API was already enabled and
address, port, device index and channel index are unchanged. -/
theorem applySettings_fullUpdate (self : WDSPRx) (settings : WDSPRxSettings)
    (cur new : WDSPRxProfile)
    (hcur : self.m_settings.activeProfile = some cur)
    (hnew : settings.activeProfile = some new)
    (hsink : self.m_running = true → self.m_basebandSink ≠ none)
    (hmirror : settings.m_useReverseAPI = true) :
    ∃ self1 request, applySettings self settings false = some self1 ∧
      self1.networkRequests = self.networkRequests ++ [request] ∧
      webapiFormatChannelSettings self request.channelSettingsKeys settings request.force =
        some request.payload ∧
      (self.m_settings.m_useReverseAPI = false → request.force = true) ∧
      (self.m_settings.m_useReverseAPI = true →
        self.m_settings.m_reverseAPIAddress = settings.m_reverseAPIAddress →
        self.m_settings.m_reverseAPIPort = settings.m_reverseAPIPort →
        self.m_settings.m_reverseAPIDeviceIndex = settings.m_reverseAPIDeviceIndex →
        self.m_settings.m_reverseAPIChannelIndex = settings.m_reverseAPIChannelIndex →
        request.force = false) := by
  obtain ⟨keys, payloadR, payloadP, -, hR, -, h⟩ :=
    applySettings_eq self settings false cur new hcur hnew hsink
  refine ⟨_, ⟨keys, fullUpdate self.m_settings settings || false,
    settings.m_reverseAPIAddress, settings.m_reverseAPIPort, settings.m_reverseAPIDeviceIndex,
    settings.m_reverseAPIChannelIndex, payloadR⟩, h, ?_, hR, ?_, ?_⟩
  · simp only [hmirror, if_true]
  · intro hoff
    simp [fullUpdate, hoff, hmirror]
  · intro hon haddr hport hdev hchan
    simp [fullUpdate, hon, hmirror, haddr, hport, hdev, hchan]

/-- Witness of C7: enabling the reverse API on the
scenario controller, and re-applying `mirrorS0` on a controller that holds it. -/
theorem applySettings_fullUpdate_witness :
    scenarioController.m_settings.activeProfile = some scenarioProfile0 ∧
    mirrorS0.activeProfile = some scenarioProfile0 ∧
    mirrorController.m_settings.activeProfile = some scenarioProfile0 ∧
    mirrorS0.m_useReverseAPI = true ∧
    scenarioController.m_settings.m_useReverseAPI = false ∧
    mirrorController.m_settings.m_useReverseAPI = true ∧
    (∃ self1 request, applySettings scenarioController mirrorS0 false = some self1 ∧
      self1.networkRequests = scenarioController.networkRequests ++ [request] ∧
      webapiFormatChannelSettings scenarioController request.channelSettingsKeys mirrorS0
        request.force = some request.payload ∧
      (scenarioController.m_settings.m_useReverseAPI = false → request.force = true) ∧
      (scenarioController.m_settings.m_useReverseAPI = true →
        scenarioController.m_settings.m_reverseAPIAddress = mirrorS0.m_reverseAPIAddress →
        scenarioController.m_settings.m_reverseAPIPort = mirrorS0.m_reverseAPIPort →
        scenarioController.m_settings.m_reverseAPIDeviceIndex = mirrorS0.m_reverseAPIDeviceIndex →
        scenarioController.m_settings.m_reverseAPIChannelIndex =
          mirrorS0.m_reverseAPIChannelIndex →
        request.force = false)) ∧
    (∃ self1 request, applySettings mirrorController mirrorS0 false = some self1 ∧
      self1.networkRequests = mirrorController.networkRequests ++ [request] ∧
      webapiFormatChannelSettings mirrorController request.channelSettingsKeys mirrorS0
        request.force = some request.payload ∧
      (mirrorController.m_settings.m_useReverseAPI = false → request.force = true) ∧
      (mirrorController.m_settings.m_useReverseAPI = true →
        mirrorController.m_settings.m_reverseAPIAddress = mirrorS0.m_reverseAPIAddress →
        mirrorController.m_settings.m_reverseAPIPort = mirrorS0.m_reverseAPIPort →
        mirrorController.m_settings.m_reverseAPIDeviceIndex = mirrorS0.m_reverseAPIDeviceIndex →
        mirrorController.m_settings.m_reverseAPIChannelIndex =
          mirrorS0.m_reverseAPIChannelIndex →
        request.force = false)) :=
  ⟨rfl, rfl, rfl, rfl, rfl, rfl,
    applySettings_fullUpdate scenarioController mirrorS0 scenarioProfile0 scenarioProfile0
      rfl rfl (by decide) rfl,
    applySettings_fullUpdate mirrorController mirrorS0 scenarioProfile0 scenarioProfile0
      rfl rfl (by decide) rfl⟩

/-! ## Stream index on a single-stream device (lines 318-331, 367) -/

/-- C8: on a device without MIMO support, a candidate that differs from the
current snapshot only in its stream index is committed (the stream index of the
canonical snapshot becomes that of the candidate), no `streamIndexChanged`
signal is emitted and no call is made on the device API. -/
theorem applySettings_streamIndex_single_stream (self : WDSPRx) (streamIndex : Int)
    (cur : WDSPRxProfile)
    (hcur : self.m_settings.activeProfile = some cur)
    (hsink : self.m_running = true → self.m_basebandSink ≠ none)
    (hmimo : self.m_deviceAPI.sampleMIMO = false)
    (hne : streamIndex ≠ self.m_settings.m_streamIndex) :
    ∃ self1,
      applySettings self { self.m_settings with m_streamIndex := streamIndex } false =
        some self1 ∧
      self1.m_settings = { self.m_settings with m_streamIndex := streamIndex } ∧
      self1.m_settings.m_streamIndex = streamIndex ∧
      self1.emitted = self.emitted ∧
      self1.m_deviceAPI = self.m_deviceAPI := by
  obtain ⟨keys, payloadR, payloadP, -, -, -, h⟩ :=
    applySettings_eq self { self.m_settings with m_streamIndex := streamIndex } false cur cur
      hcur hcur hsink
  refine ⟨_, h, rfl, rfl, ?_, ?_⟩
  · show (streamIndexBlock self _ []).1.emitted = self.emitted
    rw [streamIndexBlock_fst]
    simp [hmimo]
  · show (streamIndexBlock self _ []).1.m_deviceAPI = self.m_deviceAPI
    rw [streamIndexBlock_fst]
    rcases self with ⟨_, _, _, _, _, ⟨⟩, _⟩
    simp_all

/-- Witness of C8: stream index 0 to 1
on the scenario controller. -/
theorem applySettings_streamIndex_single_stream_witness :
    scenarioController.m_settings.activeProfile = some scenarioProfile0 ∧
    scenarioController.m_deviceAPI.sampleMIMO = false ∧
    (1 : Int) ≠ scenarioController.m_settings.m_streamIndex ∧
    ∃ self1,
      applySettings scenarioController
        { scenarioController.m_settings with m_streamIndex := 1 } false = some self1 ∧
      self1.m_settings = { scenarioController.m_settings with m_streamIndex := 1 } ∧
      self1.m_settings.m_streamIndex = 1 ∧
      self1.emitted = scenarioController.emitted ∧
      self1.m_deviceAPI = scenarioController.m_deviceAPI :=
  ⟨rfl, rfl, by decide,
    applySettings_streamIndex_single_stream scenarioController 1 scenarioProfile0
      rfl (by decide) rfl (by decide)⟩

/-! ## Commit and worker forwarding (lines 344-348, 367) -/

/-- C9: in every state where the call is defined (profile indexes in range, a
baseband sink present when running), `applySettings(candidate, force)` returns
a state whose canonical snapshot is the candidate; the key list sent to the
reverse API and to the pipes, the full-update flag and the decision to update
the visualizer are those computed from the snapshot held before the call,
although the stream index of `m_settings` may be overwritten in between. -/
theorem applySettings_commit (self : WDSPRx) (settings : WDSPRxSettings) (force : Bool)
    (cur new : WDSPRxProfile)
    (hcur : self.m_settings.activeProfile = some cur)
    (hnew : settings.activeProfile = some new)
    (hsink : self.m_running = true → self.m_basebandSink ≠ none) :
    ∃ self1 keys payloadR payloadP,
      applySettings self settings force = some self1 ∧
      self1.m_settings = settings ∧
      reverseAPIKeys self settings force = some keys ∧
      self1.m_spectrumVis.inputMessageQueue = self.m_spectrumVis.inputMessageQueue ++
        (if spectrumUpdateNeeded self.m_settings settings cur new force = true then
          [⟨{ self.m_spectrumVis.m_settings with
                m_ssb := !settings.m_dsb
                m_usb := decide (new.m_lowCutoff < new.m_highCutoff) }, false⟩]
         else []) ∧
      self1.networkRequests = self.networkRequests ++
        (if settings.m_useReverseAPI = true then
          [⟨keys, fullUpdate self.m_settings settings || force, settings.m_reverseAPIAddress,
            settings.m_reverseAPIPort, settings.m_reverseAPIDeviceIndex,
            settings.m_reverseAPIChannelIndex, payloadR⟩]
         else []) ∧
      self1.settingsPipes = self.settingsPipes.map (pushToPipe ⟨keys, payloadP, force⟩) := by
  obtain ⟨keys, payloadR, payloadP, hkeys, -, -, h⟩ :=
    applySettings_eq self settings force cur new hcur hnew hsink
  refine ⟨_, keys, payloadR, payloadP, h, rfl, hkeys, ?_, ?_, rfl⟩
  · show (if _ then _ else _) = _
    split <;> simp
  · show (if _ then _ else _) = _
    split <;> simp

/-- Witness of C9: a running controller on a MIMO device,
a candidate that switches profile and stream, `force = false`. -/
theorem applySettings_commit_witness :
    mimoController.m_settings.activeProfile = some scenarioProfile0 ∧
    mimoCandidate.activeProfile = some scenarioProfile1 ∧
    (mimoController.m_running = true → mimoController.m_basebandSink ≠ none) ∧
    ∃ self1 keys payloadR payloadP,
      applySettings mimoController mimoCandidate false = some self1 ∧
      self1.m_settings = mimoCandidate ∧
      reverseAPIKeys mimoController mimoCandidate false = some keys ∧
      self1.m_spectrumVis.inputMessageQueue =
        mimoController.m_spectrumVis.inputMessageQueue ++
        (if spectrumUpdateNeeded mimoController.m_settings mimoCandidate
              scenarioProfile0 scenarioProfile1 false = true then
          [⟨{ mimoController.m_spectrumVis.m_settings with
                m_ssb := !mimoCandidate.m_dsb
                m_usb := decide (scenarioProfile1.m_lowCutoff < scenarioProfile1.m_highCutoff) },
            false⟩]
         else []) ∧
      self1.networkRequests = mimoController.networkRequests ++
        (if mimoCandidate.m_useReverseAPI = true then
          [⟨keys, fullUpdate mimoController.m_settings mimoCandidate || false,
            mimoCandidate.m_reverseAPIAddress, mimoCandidate.m_reverseAPIPort,
            mimoCandidate.m_reverseAPIDeviceIndex, mimoCandidate.m_reverseAPIChannelIndex,
            payloadR⟩]
         else []) ∧
      self1.settingsPipes =
        mimoController.settingsPipes.map (pushToPipe ⟨keys, payloadP, false⟩) :=
  ⟨rfl, rfl, by decide, applySettings_commit mimoController mimoCandidate false
    scenarioProfile0 scenarioProfile1 rfl rfl (by decide)⟩

/-- C10: from a running controller with baseband sink `sink`, `applySettings`
appends exactly one message carrying (candidate, force) at the tail of the
input queue of the sink; from the same controller stopped, the sink is left
untouched; the canonical snapshot, the visualizer, the reverse API requests,
the pipes, the emitted signals and the device API calls are the same in both
cases. -/
theorem applySettings_running_frame (self : WDSPRx) (settings : WDSPRxSettings) (force : Bool)
    (cur new : WDSPRxProfile) (sink : WDSPRxBaseband)
    (hcur : self.m_settings.activeProfile = some cur)
    (hnew : settings.activeProfile = some new) :
    ∃ running stopped,
      applySettings { self with m_running := true, m_basebandSink := some sink } settings force =
        some running ∧
      applySettings { self with m_running := false } settings force = some stopped ∧
      running.m_basebandSink = some { sink with
        inputMessageQueue := sink.inputMessageQueue ++
          [BasebandMessage.MsgConfigureWDSPRxBaseband settings force] } ∧
      stopped.m_basebandSink = self.m_basebandSink ∧
      running.m_running = true ∧ stopped.m_running = false ∧
      running.m_settings = settings ∧ stopped.m_settings = settings ∧
      running.m_spectrumVis = stopped.m_spectrumVis ∧
      running.networkRequests = stopped.networkRequests ∧
      running.settingsPipes = stopped.settingsPipes ∧
      running.emitted = stopped.emitted ∧
      running.m_deviceAPI = stopped.m_deviceAPI := by
  obtain ⟨keysR, payloadR1, payloadP1, hk1, hR1, hP1, h1⟩ :=
    applySettings_eq { self with m_running := true, m_basebandSink := some sink } settings force
      cur new hcur hnew (by intro _; simp)
  obtain ⟨keysS, payloadR2, payloadP2, hk2, hR2, hP2, h2⟩ :=
    applySettings_eq { self with m_running := false } settings force
      cur new hcur hnew (by intro h; simp at h)
  have hkeys : keysR = keysS := by
    have e : reverseAPIKeys { self with m_running := true, m_basebandSink := some sink }
        settings force = reverseAPIKeys { self with m_running := false } settings force :=
      reverseAPIKeys_congr _ _ settings force rfl
    exact Option.some.inj ((hk1.symm.trans e).trans hk2)
  subst hkeys
  have hpayloadR : payloadR1 = payloadR2 := by
    have e : webapiFormatChannelSettings
        { self with m_running := true, m_basebandSink := some sink } keysR settings
          (fullUpdate self.m_settings settings || force) =
        webapiFormatChannelSettings { self with m_running := false } keysR settings
          (fullUpdate self.m_settings settings || force) :=
      webapiFormatChannelSettings_congr _ _ _ _ _ rfl rfl
    exact Option.some.inj ((hR1.symm.trans e).trans hR2)
  have hpayloadP : payloadP1 = payloadP2 := by
    have e : webapiFormatChannelSettings
        { self with m_running := true, m_basebandSink := some sink } keysR settings force =
        webapiFormatChannelSettings { self with m_running := false } keysR settings force :=
      webapiFormatChannelSettings_congr _ _ _ _ _ rfl rfl
    exact Option.some.inj ((hP1.symm.trans e).trans hP2)
  subst hpayloadR hpayloadP
  refine ⟨_, _, h1, h2, rfl, rfl, ?_, ?_, rfl, rfl, rfl, rfl, rfl, ?_, ?_⟩
  · show (streamIndexBlock _ settings []).1.m_running = true
    rw [streamIndexBlock_fst]
  · show (streamIndexBlock _ settings []).1.m_running = false
    rw [streamIndexBlock_fst]
  · show (streamIndexBlock _ settings []).1.emitted = (streamIndexBlock _ settings []).1.emitted
    rw [streamIndexBlock_fst, streamIndexBlock_fst]
  · show (streamIndexBlock _ settings []).1.m_deviceAPI =
      (streamIndexBlock _ settings []).1.m_deviceAPI
    rw [streamIndexBlock_fst, streamIndexBlock_fst]

/-- Witness of C10: the MIMO controller with an idle
sink, a candidate that switches profile and stream, `force = false`. -/
theorem applySettings_running_frame_witness :
    mimoController.m_settings.activeProfile = some scenarioProfile0 ∧
    mimoCandidate.activeProfile = some scenarioProfile1 ∧
    ∃ running stopped,
      applySettings { mimoController with
        m_running := true, m_basebandSink := some { inputMessageQueue := [], fed := [] } }
        mimoCandidate false =
        some running ∧
      applySettings { mimoController with m_running := false } mimoCandidate false =
        some stopped ∧
      running.m_basebandSink = some { ({ inputMessageQueue := [], fed := [] } : WDSPRxBaseband) with
        inputMessageQueue := ({ inputMessageQueue := [], fed := [] } : WDSPRxBaseband).inputMessageQueue ++
          [BasebandMessage.MsgConfigureWDSPRxBaseband mimoCandidate false] } ∧
      stopped.m_basebandSink = mimoController.m_basebandSink ∧
      running.m_running = true ∧ stopped.m_running = false ∧
      running.m_settings = mimoCandidate ∧ stopped.m_settings = mimoCandidate ∧
      running.m_spectrumVis = stopped.m_spectrumVis ∧
      running.networkRequests = stopped.networkRequests ∧
      running.settingsPipes = stopped.settingsPipes ∧
      running.emitted = stopped.emitted ∧
      running.m_deviceAPI = stopped.m_deviceAPI :=
  ⟨rfl, rfl, applySettings_running_frame mimoController mimoCandidate false
    scenarioProfile0 scenarioProfile1 { inputMessageQueue := [], fed := [] } rfl rfl⟩

/-! ## Persisted settings (lines 375-390) -/

/-- C11: when the settings deserializer rejects the bytes, `deserialize`
returns false, the canonical snapshot is the one left by `resetToDefaults` and
exactly one configuration request carrying that snapshot with `force = true`
is appended to the input queue of the controller; when it accepts them,
`deserialize` returns true and appends one forced request carrying the
deserialized snapshot. -/
theorem deserialize_result
    (settingsDeserialize : WDSPRxSettings → List Nat → Bool × WDSPRxSettings)
    (resetToDefaults : WDSPRxSettings → WDSPRxSettings)
    (self : WDSPRx) (data : List Nat) :
    ((settingsDeserialize self.m_settings data).1 = false →
      (deserialize settingsDeserialize resetToDefaults self data).1 = false ∧
      (deserialize settingsDeserialize resetToDefaults self data).2.m_settings =
        resetToDefaults (settingsDeserialize self.m_settings data).2 ∧
      (deserialize settingsDeserialize resetToDefaults self data).2.m_inputMessageQueue =
        self.m_inputMessageQueue ++
          [⟨resetToDefaults (settingsDeserialize self.m_settings data).2, true⟩]) ∧
    ((settingsDeserialize self.m_settings data).1 = true →
      (deserialize settingsDeserialize resetToDefaults self data).1 = true ∧
      (deserialize settingsDeserialize resetToDefaults self data).2.m_settings =
        (settingsDeserialize self.m_settings data).2 ∧
      (deserialize settingsDeserialize resetToDefaults self data).2.m_inputMessageQueue =
        self.m_inputMessageQueue ++ [⟨(settingsDeserialize self.m_settings data).2, true⟩]) := by
  constructor
  · intro h
    simp [deserialize, h]
  · intro h
    simp [deserialize, h]

/-- Witness of C11: three bytes are rejected by the stand-in deserializer and
the controller is left with the scenario snapshot S0 and one forced request. -/
theorem deserialize_result_witness :
    (sampleSettingsDeserialize mimoController.m_settings [1, 2, 3]).1 = false ∧
    (deserialize sampleSettingsDeserialize sampleResetToDefaults mimoController [1, 2, 3]).1 =
      false ∧
    (deserialize sampleSettingsDeserialize sampleResetToDefaults mimoController
      [1, 2, 3]).2.m_settings = scenarioS0 ∧
    (deserialize sampleSettingsDeserialize sampleResetToDefaults mimoController
      [1, 2, 3]).2.m_inputMessageQueue = [⟨scenarioS0, true⟩] :=
  ⟨by decide,
    ((deserialize_result sampleSettingsDeserialize sampleResetToDefaults mimoController
      [1, 2, 3]).1 (by decide)).1,
    by decide, by decide⟩

/-! ## Lifecycle (lines 126-193) -/

theorem start_of_stopped (self : WDSPRx) (hstopped : self.m_running = false) :
    start self =
      { self with
        m_thread := some { isRunning := true }
        m_basebandSink := some {
          inputMessageQueue := [BasebandMessage.MsgConfigureWDSPRxBaseband self.m_settings true]
          fed := []
          fifoLabel :=
            some (m_channelId, self.m_deviceAPI.deviceSetIndex, self.m_indexInDeviceSet)
          spectrumSinkSet := true
          channelSet := true
          messageQueueToGUISet := self.m_guiMessageQueue.isSome
          movedToThread := true
          basebandSampleRate :=
            if self.m_basebandSampleRate = 0 then none else some self.m_basebandSampleRate }
        basebandSinksCreated := self.basebandSinksCreated + 1
        m_running := true } := by
  by_cases hrate : self.m_basebandSampleRate = 0 <;> simp [start, hstopped, hrate]

theorem start_of_running (self : WDSPRx) (hrunning : self.m_running = true) :
    start self = self := by
  simp [start, hrunning]

theorem start_running (self : WDSPRx) : (start self).m_running = true := by
  cases h : self.m_running
  · rw [start_of_stopped self h]
  · rw [start_of_running self h]
    exact h

/-- C12: `start` after `start` gives the state given by one `start`, in which
one more worker has been created than before when the controller was stopped;
`stop` after `stop` gives the result of one `stop`; `start` on a running
controller and `stop` on a stopped controller change nothing. -/
theorem start_stop_idempotent (self : WDSPRx) :
    start (start self) = start self ∧
    (stop self).bind stop = stop self ∧
    (self.m_running = true → start self = self) ∧
    (self.m_running = false → stop self = some self) ∧
    (self.m_running = false →
      (start (start self)).basebandSinksCreated = self.basebandSinksCreated + 1 ∧
      (start (start self)).m_basebandSink.map (fun sink => sink.inputMessageQueue) =
        some [BasebandMessage.MsgConfigureWDSPRxBaseband self.m_settings true]) := by
  refine ⟨start_of_running _ (start_running self), ?_, start_of_running self, ?_, ?_⟩
  · cases hr : self.m_running
    · simp [stop, hr]
    · cases ht : self.m_thread with
      | none => simp [stop, hr, ht]
      | some thread => simp [stop, hr, ht]
  · intro h
    simp [stop, h]
  · intro h
    rw [start_of_running _ (start_running self), start_of_stopped self h]
    exact ⟨rfl, rfl⟩

/-- Witness of C12 on the stopped scenario controller and on the running MIMO
controller. -/
theorem start_stop_idempotent_witness :
    scenarioController.m_running = false ∧
    start (start scenarioController) = start scenarioController ∧
    (start (start scenarioController)).basebandSinksCreated = 1 ∧
    stop scenarioController = some scenarioController ∧
    (stop (start scenarioController)).bind stop = stop (start scenarioController) ∧
    (stop (start scenarioController)).map (fun next => next.m_running) = some false :=
  ⟨rfl, (start_stop_idempotent scenarioController).1,
    ((start_stop_idempotent scenarioController).2.2.2.2 rfl).1,
    (start_stop_idempotent scenarioController).2.2.2.1 rfl,
    (start_stop_idempotent (start scenarioController)).2.1, by decide⟩

/-- C13: when a thread is held while running, `stop` returns a stopped
controller on which every `feed` is defined and changes nothing; on any
controller that holds a worker, `feed` appends the block to what the worker has
been fed when the running flag is set and changes nothing when it is not. -/
theorem feed_after_stop (self : WDSPRx)
    (hthread : self.m_running = true → self.m_thread ≠ none) :
    (∃ next, stop self = some next ∧ next.m_running = false ∧
      ∀ samples positiveOnly, feed next samples positiveOnly = some next) ∧
    (∀ (other : WDSPRx) (sink : WDSPRxBaseband) samples positiveOnly,
      other.m_basebandSink = some sink →
      (other.m_running = true →
        feed other samples positiveOnly =
          some { other with
            m_basebandSink := some { sink with fed := sink.fed ++ [samples.length] } }) ∧
      (other.m_running = false → feed other samples positiveOnly = some other)) := by
  constructor
  · cases hr : self.m_running
    · exact ⟨self, by simp [stop, hr], hr, fun _ _ => by simp [feed, hr]⟩
    · cases ht : self.m_thread with
      | none => exact absurd ht (hthread hr)
      | some thread =>
        refine ⟨{ self with m_running := false, m_thread := some { thread with isRunning := false } },
          by simp [stop, hr, ht], rfl, fun _ _ => by simp [feed]⟩
  · intro other sink samples positiveOnly hs
    exact ⟨fun h => by simp [feed, h, hs], fun h => by simp [feed, h]⟩

/-- Witness of C13: the scenario controller started, then stopped, then fed. -/
theorem feed_after_stop_witness :
    ((start scenarioController).m_running = true → (start scenarioController).m_thread ≠ none) ∧
    (∃ next, stop (start scenarioController) = some next ∧ next.m_running = false ∧
      ∀ samples positiveOnly, feed next samples positiveOnly = some next) :=
  ⟨by decide, (feed_after_stop (start scenarioController) (by decide)).1⟩

/-- C14: from a stopped controller, `start` leaves the controller running with
the canonical snapshot unchanged, and the queue of the worker it has created
holds one message, the configuration message carrying that snapshot with
`force = true`. -/
theorem start_from_stopped (self : WDSPRx) (hstopped : self.m_running = false) :
    (start self).m_running = true ∧
    (start self).m_settings = self.m_settings ∧
    (start self).basebandSinksCreated = self.basebandSinksCreated + 1 ∧
    ∃ sink, (start self).m_basebandSink = some sink ∧
      sink.inputMessageQueue =
        [BasebandMessage.MsgConfigureWDSPRxBaseband self.m_settings true] ∧
      sink.inputMessageQueue.head? =
        some (BasebandMessage.MsgConfigureWDSPRxBaseband self.m_settings true) := by
  rw [start_of_stopped self hstopped]
  exact ⟨rfl, rfl, rfl, _, rfl, rfl, rfl⟩

/-- Witness of C14 on the stopped scenario controller. -/
theorem start_from_stopped_witness :
    scenarioController.m_running = false ∧
    (start scenarioController).m_running = true ∧
    (start scenarioController).m_settings = scenarioController.m_settings ∧
    (start scenarioController).basebandSinksCreated =
      scenarioController.basebandSinksCreated + 1 ∧
    ∃ sink, (start scenarioController).m_basebandSink = some sink ∧
      sink.inputMessageQueue =
        [BasebandMessage.MsgConfigureWDSPRxBaseband scenarioController.m_settings true] ∧
      sink.inputMessageQueue.head? =
        some (BasebandMessage.MsgConfigureWDSPRxBaseband scenarioController.m_settings true) :=
  ⟨rfl, start_from_stopped scenarioController rfl⟩

/-! ## Fanout to the "settings" pipes (lines 360-365, 676-701) -/

theorem whenKey_some (cond : Bool) (f : SWGSSBDemodSettings → SWGSSBDemodSettings)
    (swg : SWGSSBDemodSettings) :
    whenKey cond (fun swg => some (f swg)) swg = some (applyWhen cond f swg) := by
  unfold whenKey applyWhen
  split <;> rfl

theorem whenKey_subobject (cond : Bool) (object : Option Nat)
    (f : SWGSSBDemodSettings → Nat → SWGSSBDemodSettings) (swg : SWGSSBDemodSettings) :
    whenKey (object.isSome && cond) (fun swg => object.bind fun content => some (f swg content))
        swg =
      some (applyWhen (object.isSome && cond) (fun swg => f swg (object.getD 0)) swg) := by
  unfold whenKey applyWhen
  cases object <;> cases cond <;> simp

theorem applyWhen_inputFrequencyOffset (cond : Bool) (f : SWGSSBDemodSettings → SWGSSBDemodSettings)
    (swg : SWGSSBDemodSettings) :
    (applyWhen cond f swg).inputFrequencyOffset = if cond = true then (f swg).inputFrequencyOffset else swg.inputFrequencyOffset := by
  unfold applyWhen
  split <;> rfl

theorem applyWhen_filterIndex (cond : Bool) (f : SWGSSBDemodSettings → SWGSSBDemodSettings)
    (swg : SWGSSBDemodSettings) :
    (applyWhen cond f swg).filterIndex = if cond = true then (f swg).filterIndex else swg.filterIndex := by
  unfold applyWhen
  split <;> rfl

theorem applyWhen_spanLog2 (cond : Bool) (f : SWGSSBDemodSettings → SWGSSBDemodSettings)
    (swg : SWGSSBDemodSettings) :
    (applyWhen cond f swg).spanLog2 = if cond = true then (f swg).spanLog2 else swg.spanLog2 := by
  unfold applyWhen
  split <;> rfl

theorem applyWhen_rfBandwidth (cond : Bool) (f : SWGSSBDemodSettings → SWGSSBDemodSettings)
    (swg : SWGSSBDemodSettings) :
    (applyWhen cond f swg).rfBandwidth = if cond = true then (f swg).rfBandwidth else swg.rfBandwidth := by
  unfold applyWhen
  split <;> rfl

theorem applyWhen_lowCutoff (cond : Bool) (f : SWGSSBDemodSettings → SWGSSBDemodSettings)
    (swg : SWGSSBDemodSettings) :
    (applyWhen cond f swg).lowCutoff = if cond = true then (f swg).lowCutoff else swg.lowCutoff := by
  unfold applyWhen
  split <;> rfl

theorem applyWhen_fftWindow (cond : Bool) (f : SWGSSBDemodSettings → SWGSSBDemodSettings)
    (swg : SWGSSBDemodSettings) :
    (applyWhen cond f swg).fftWindow = if cond = true then (f swg).fftWindow else swg.fftWindow := by
  unfold applyWhen
  split <;> rfl

theorem applyWhen_volume (cond : Bool) (f : SWGSSBDemodSettings → SWGSSBDemodSettings)
    (swg : SWGSSBDemodSettings) :
    (applyWhen cond f swg).volume = if cond = true then (f swg).volume else swg.volume := by
  unfold applyWhen
  split <;> rfl

theorem applyWhen_audioBinaural (cond : Bool) (f : SWGSSBDemodSettings → SWGSSBDemodSettings)
    (swg : SWGSSBDemodSettings) :
    (applyWhen cond f swg).audioBinaural = if cond = true then (f swg).audioBinaural else swg.audioBinaural := by
  unfold applyWhen
  split <;> rfl

theorem applyWhen_audioFlipChannels (cond : Bool) (f : SWGSSBDemodSettings → SWGSSBDemodSettings)
    (swg : SWGSSBDemodSettings) :
    (applyWhen cond f swg).audioFlipChannels = if cond = true then (f swg).audioFlipChannels else swg.audioFlipChannels := by
  unfold applyWhen
  split <;> rfl

theorem applyWhen_dsb (cond : Bool) (f : SWGSSBDemodSettings → SWGSSBDemodSettings)
    (swg : SWGSSBDemodSettings) :
    (applyWhen cond f swg).dsb = if cond = true then (f swg).dsb else swg.dsb := by
  unfold applyWhen
  split <;> rfl

theorem applyWhen_audioMute (cond : Bool) (f : SWGSSBDemodSettings → SWGSSBDemodSettings)
    (swg : SWGSSBDemodSettings) :
    (applyWhen cond f swg).audioMute = if cond = true then (f swg).audioMute else swg.audioMute := by
  unfold applyWhen
  split <;> rfl

theorem applyWhen_agc (cond : Bool) (f : SWGSSBDemodSettings → SWGSSBDemodSettings)
    (swg : SWGSSBDemodSettings) :
    (applyWhen cond f swg).agc = if cond = true then (f swg).agc else swg.agc := by
  unfold applyWhen
  split <;> rfl

theorem applyWhen_rgbColor (cond : Bool) (f : SWGSSBDemodSettings → SWGSSBDemodSettings)
    (swg : SWGSSBDemodSettings) :
    (applyWhen cond f swg).rgbColor = if cond = true then (f swg).rgbColor else swg.rgbColor := by
  unfold applyWhen
  split <;> rfl

theorem applyWhen_title (cond : Bool) (f : SWGSSBDemodSettings → SWGSSBDemodSettings)
    (swg : SWGSSBDemodSettings) :
    (applyWhen cond f swg).title = if cond = true then (f swg).title else swg.title := by
  unfold applyWhen
  split <;> rfl

theorem applyWhen_audioDeviceName (cond : Bool) (f : SWGSSBDemodSettings → SWGSSBDemodSettings)
    (swg : SWGSSBDemodSettings) :
    (applyWhen cond f swg).audioDeviceName = if cond = true then (f swg).audioDeviceName else swg.audioDeviceName := by
  unfold applyWhen
  split <;> rfl

theorem applyWhen_streamIndex (cond : Bool) (f : SWGSSBDemodSettings → SWGSSBDemodSettings)
    (swg : SWGSSBDemodSettings) :
    (applyWhen cond f swg).streamIndex = if cond = true then (f swg).streamIndex else swg.streamIndex := by
  unfold applyWhen
  split <;> rfl

theorem applyWhen_useReverseApi (cond : Bool) (f : SWGSSBDemodSettings → SWGSSBDemodSettings)
    (swg : SWGSSBDemodSettings) :
    (applyWhen cond f swg).useReverseApi = if cond = true then (f swg).useReverseApi else swg.useReverseApi := by
  unfold applyWhen
  split <;> rfl

theorem applyWhen_reverseApiAddress (cond : Bool) (f : SWGSSBDemodSettings → SWGSSBDemodSettings)
    (swg : SWGSSBDemodSettings) :
    (applyWhen cond f swg).reverseApiAddress = if cond = true then (f swg).reverseApiAddress else swg.reverseApiAddress := by
  unfold applyWhen
  split <;> rfl

theorem applyWhen_reverseApiPort (cond : Bool) (f : SWGSSBDemodSettings → SWGSSBDemodSettings)
    (swg : SWGSSBDemodSettings) :
    (applyWhen cond f swg).reverseApiPort = if cond = true then (f swg).reverseApiPort else swg.reverseApiPort := by
  unfold applyWhen
  split <;> rfl

theorem applyWhen_reverseApiDeviceIndex (cond : Bool) (f : SWGSSBDemodSettings → SWGSSBDemodSettings)
    (swg : SWGSSBDemodSettings) :
    (applyWhen cond f swg).reverseApiDeviceIndex = if cond = true then (f swg).reverseApiDeviceIndex else swg.reverseApiDeviceIndex := by
  unfold applyWhen
  split <;> rfl

theorem applyWhen_reverseApiChannelIndex (cond : Bool) (f : SWGSSBDemodSettings → SWGSSBDemodSettings)
    (swg : SWGSSBDemodSettings) :
    (applyWhen cond f swg).reverseApiChannelIndex = if cond = true then (f swg).reverseApiChannelIndex else swg.reverseApiChannelIndex := by
  unfold applyWhen
  split <;> rfl

theorem applyWhen_spectrumConfig (cond : Bool) (f : SWGSSBDemodSettings → SWGSSBDemodSettings)
    (swg : SWGSSBDemodSettings) :
    (applyWhen cond f swg).spectrumConfig = if cond = true then (f swg).spectrumConfig else swg.spectrumConfig := by
  unfold applyWhen
  split <;> rfl

theorem applyWhen_channelMarker (cond : Bool) (f : SWGSSBDemodSettings → SWGSSBDemodSettings)
    (swg : SWGSSBDemodSettings) :
    (applyWhen cond f swg).channelMarker = if cond = true then (f swg).channelMarker else swg.channelMarker := by
  unfold applyWhen
  split <;> rfl

theorem applyWhen_rollupState (cond : Bool) (f : SWGSSBDemodSettings → SWGSSBDemodSettings)
    (swg : SWGSSBDemodSettings) :
    (applyWhen cond f swg).rollupState = if cond = true then (f swg).rollupState else swg.rollupState := by
  unfold applyWhen
  split <;> rfl

theorem webapiFormatChannelSettings_fields (self : WDSPRx) (keys : List String)
    (settings : WDSPRxSettings) (force : Bool) (new : WDSPRxProfile)
    (hnew : settings.activeProfile = some new) :
    ∃ payload, webapiFormatChannelSettings self keys settings force = some payload ∧
      payload.direction = 0 ∧
      payload.originatorChannelIndex = self.m_indexInDeviceSet ∧
      payload.originatorDeviceSetIndex = self.m_deviceAPI.deviceSetIndex ∧
      payload.channelType = m_channelId ∧
      payload.ssbDemodSettings.inputFrequencyOffset =
        (if (keys.contains "inputFrequencyOffset" || force) = true then some settings.m_inputFrequencyOffset else none) ∧
      payload.ssbDemodSettings.spanLog2 =
        (if (keys.contains "spanLog2" || force) = true then some new.m_spanLog2 else none) ∧
      payload.ssbDemodSettings.rfBandwidth =
        (if (keys.contains "rfBandwidth" || force) = true then some new.m_highCutoff else none) ∧
      payload.ssbDemodSettings.volume =
        (if (keys.contains "volume" || force) = true then some settings.m_volume else none) ∧
      payload.ssbDemodSettings.audioBinaural =
        (if (keys.contains "audioBinaural" || force) = true then some (if settings.m_audioBinaural = true then 1 else 0) else none) ∧
      payload.ssbDemodSettings.audioFlipChannels =
        (if (keys.contains "audioFlipChannels" || force) = true then some (if settings.m_audioFlipChannels = true then 1 else 0) else none) ∧
      payload.ssbDemodSettings.dsb =
        (if (keys.contains "dsb" || force) = true then some (if settings.m_dsb = true then 1 else 0) else none) ∧
      payload.ssbDemodSettings.audioMute =
        (if (keys.contains "audioMute" || force) = true then some (if settings.m_audioMute = true then 1 else 0) else none) ∧
      payload.ssbDemodSettings.agc =
        (if (keys.contains "agc" || force) = true then some (if settings.m_agc = true then 1 else 0) else none) ∧
      payload.ssbDemodSettings.rgbColor =
        (if (keys.contains "rgbColor" || force) = true then some settings.m_rgbColor else none) ∧
      payload.ssbDemodSettings.title =
        (if (keys.contains "title" || force) = true then some settings.m_title else none) ∧
      payload.ssbDemodSettings.audioDeviceName =
        (if (keys.contains "audioDeviceName" || force) = true then some settings.m_audioDeviceName else none) ∧
      payload.ssbDemodSettings.streamIndex =
        (if (keys.contains "streamIndex" || force) = true then some settings.m_streamIndex else none) ∧
      payload.ssbDemodSettings.channelMarker =
        (if (keys.contains "channelMarker" || force) = true then settings.m_channelMarker
         else none) ∧
      payload.ssbDemodSettings.rollupState =
        (if (keys.contains "rollupState" || force) = true then settings.m_rollupState
         else none) ∧
      payload.ssbDemodSettings.useReverseApi = none ∧
      payload.ssbDemodSettings.reverseApiAddress = none ∧
      payload.ssbDemodSettings.reverseApiPort = none ∧
      payload.ssbDemodSettings.reverseApiDeviceIndex = none ∧
      payload.ssbDemodSettings.reverseApiChannelIndex = none ∧
      (force = true →
        payload.ssbDemodSettings.filterIndex = some settings.m_profileIndex ∧
        payload.ssbDemodSettings.spectrumConfig = settings.m_spectrumGUI) ∧
      (force = false → keys.contains "fftWindow" = false →
        payload.ssbDemodSettings.lowCutoff =
          (if keys.contains "lowCutoff" = true then some new.m_lowCutoff else none)) := by
  simp only [webapiFormatChannelSettings, webapiFormatStatements, runStatements, hnew,
    Option.pure_def, Option.bind_eq_bind, Option.some_bind, whenKey_some, whenKey_subobject]
  refine ⟨_, rfl, rfl, rfl, rfl, rfl, ?_, ?_, ?_, ?_, ?_, ?_, ?_, ?_, ?_, ?_, ?_, ?_, ?_, ?_, ?_, ?_, ?_, ?_, ?_, ?_, ?_, ?_⟩
  all_goals try simp only [applyWhen_inputFrequencyOffset, applyWhen_filterIndex, applyWhen_spanLog2, applyWhen_rfBandwidth, applyWhen_lowCutoff, applyWhen_fftWindow, applyWhen_volume, applyWhen_audioBinaural, applyWhen_audioFlipChannels, applyWhen_dsb, applyWhen_audioMute, applyWhen_agc, applyWhen_rgbColor, applyWhen_title, applyWhen_audioDeviceName, applyWhen_streamIndex, applyWhen_useReverseApi, applyWhen_reverseApiAddress, applyWhen_reverseApiPort, applyWhen_reverseApiDeviceIndex, applyWhen_reverseApiChannelIndex, applyWhen_spectrumConfig, applyWhen_channelMarker, applyWhen_rollupState,
        SWGSSBDemodSettings.setInputFrequencyOffset, SWGSSBDemodSettings.setFilterIndex, SWGSSBDemodSettings.setSpanLog2, SWGSSBDemodSettings.setRfBandwidth, SWGSSBDemodSettings.setLowCutoff, SWGSSBDemodSettings.setVolume, SWGSSBDemodSettings.setAudioBinaural, SWGSSBDemodSettings.setAudioFlipChannels, SWGSSBDemodSettings.setDsb, SWGSSBDemodSettings.setAudioMute, SWGSSBDemodSettings.setAgc, SWGSSBDemodSettings.setRgbColor, SWGSSBDemodSettings.setTitle, SWGSSBDemodSettings.setAudioDeviceName, SWGSSBDemodSettings.setStreamIndex, SWGSSBDemodSettings.setSpectrumConfig, SWGSSBDemodSettings.setChannelMarker, SWGSSBDemodSettings.setRollupState, ite_self]
  · cases settings.m_channelMarker <;> simp
  · cases settings.m_rollupState <;> simp
  · intro hforce
    subst hforce
    cases settings.m_spectrumGUI <;> simp
  · intro hforce hfft
    subst hforce
    have hmem : ¬ "fftWindow" ∈ keys := by simpa using hfft
    simp [hmem]

/-- C15: `applySettings` commits the candidate and pushes on every pipe that
leads to a message queue, in the order of the pipes, exactly one message that
carries the key list computed by this call, the force flag and the payload
formatted from the candidate: the envelope of the channel and, for each field
whose key is in the key list or when `force` is set, the value that the
candidate holds for that field, the other fields being unset and the reverse
API fields never carried. With no pipe nothing is pushed and the candidate is
committed all the same. The fields `filterIndex` and `spectrumConfig` are
stated for `force` set, `lowCutoff` for a call without force and without the
key "fftWindow", and `fftWindow` is not stated: these are the fields touched by
the statements of lines 722, 735 and 768. -/
theorem applySettings_fanout (self : WDSPRx) (settings : WDSPRxSettings) (force : Bool)
    (cur new : WDSPRxProfile)
    (hcur : self.m_settings.activeProfile = some cur)
    (hnew : settings.activeProfile = some new)
    (hsink : self.m_running = true → self.m_basebandSink ≠ none) :
    ∃ self1 keys payload,
      applySettings self settings force = some self1 ∧
      self1.m_settings = settings ∧
      reverseAPIKeys self settings force = some keys ∧
      webapiFormatChannelSettings self keys settings force = some payload ∧
      self1.settingsPipes = self.settingsPipes.map (pushToPipe ⟨keys, payload, force⟩) ∧
      self1.settingsPipes.length = self.settingsPipes.length ∧
      (∀ queues : List (List MsgChannelSettings),
        self.settingsPipes = queues.map (fun queue => ⟨some queue⟩) →
        self1.settingsPipes =
          queues.map (fun queue => ⟨some (queue ++ [⟨keys, payload, force⟩])⟩)) ∧
      (self.settingsPipes = [] → self1.settingsPipes = []) ∧
      payload.direction = 0 ∧
      payload.originatorChannelIndex = self.m_indexInDeviceSet ∧
      payload.originatorDeviceSetIndex = self.m_deviceAPI.deviceSetIndex ∧
      payload.channelType = m_channelId ∧
      payload.ssbDemodSettings.inputFrequencyOffset =
        (if (keys.contains "inputFrequencyOffset" || force) = true then some settings.m_inputFrequencyOffset else none) ∧
      payload.ssbDemodSettings.spanLog2 =
        (if (keys.contains "spanLog2" || force) = true then some new.m_spanLog2 else none) ∧
      payload.ssbDemodSettings.rfBandwidth =
        (if (keys.contains "rfBandwidth" || force) = true then some new.m_highCutoff else none) ∧
      payload.ssbDemodSettings.volume =
        (if (keys.contains "volume" || force) = true then some settings.m_volume else none) ∧
      payload.ssbDemodSettings.audioBinaural =
        (if (keys.contains "audioBinaural" || force) = true then some (if settings.m_audioBinaural = true then 1 else 0) else none) ∧
      payload.ssbDemodSettings.audioFlipChannels =
        (if (keys.contains "audioFlipChannels" || force) = true then some (if settings.m_audioFlipChannels = true then 1 else 0) else none) ∧
      payload.ssbDemodSettings.dsb =
        (if (keys.contains "dsb" || force) = true then some (if settings.m_dsb = true then 1 else 0) else none) ∧
      payload.ssbDemodSettings.audioMute =
        (if (keys.contains "audioMute" || force) = true then some (if settings.m_audioMute = true then 1 else 0) else none) ∧
      payload.ssbDemodSettings.agc =
        (if (keys.contains "agc" || force) = true then some (if settings.m_agc = true then 1 else 0) else none) ∧
      payload.ssbDemodSettings.rgbColor =
        (if (keys.contains "rgbColor" || force) = true then some settings.m_rgbColor else none) ∧
      payload.ssbDemodSettings.title =
        (if (keys.contains "title" || force) = true then some settings.m_title else none) ∧
      payload.ssbDemodSettings.audioDeviceName =
        (if (keys.contains "audioDeviceName" || force) = true then some settings.m_audioDeviceName else none) ∧
      payload.ssbDemodSettings.streamIndex =
        (if (keys.contains "streamIndex" || force) = true then some settings.m_streamIndex else none) ∧
      payload.ssbDemodSettings.channelMarker =
        (if (keys.contains "channelMarker" || force) = true then settings.m_channelMarker
         else none) ∧
      payload.ssbDemodSettings.rollupState =
        (if (keys.contains "rollupState" || force) = true then settings.m_rollupState
         else none) ∧
      payload.ssbDemodSettings.useReverseApi = none ∧
      payload.ssbDemodSettings.reverseApiAddress = none ∧
      payload.ssbDemodSettings.reverseApiPort = none ∧
      payload.ssbDemodSettings.reverseApiDeviceIndex = none ∧
      payload.ssbDemodSettings.reverseApiChannelIndex = none ∧
      (force = true →
        payload.ssbDemodSettings.filterIndex = some settings.m_profileIndex ∧
        payload.ssbDemodSettings.spectrumConfig = settings.m_spectrumGUI) ∧
      (force = false → keys.contains "fftWindow" = false →
        payload.ssbDemodSettings.lowCutoff =
          (if keys.contains "lowCutoff" = true then some new.m_lowCutoff else none)) := by
  obtain ⟨keys, payloadR, payloadP, hkeys, -, hP, h⟩ :=
    applySettings_eq self settings force cur new hcur hnew hsink
  obtain ⟨payload, hpayload, hfields⟩ :=
    webapiFormatChannelSettings_fields self keys settings force new hnew
  have hsame : payloadP = payload := Option.some.inj (hP.symm.trans hpayload)
  subst hsame
  refine ⟨_, keys, payloadP, h, rfl, hkeys, hP, rfl, ?_, ?_, ?_, hfields⟩
  · show (self.settingsPipes.map _).length = _
    simp
  · intro queues hq
    show self.settingsPipes.map _ = _
    rw [hq, List.map_map]
    rfl
  · intro hempty
    show self.settingsPipes.map _ = _
    rw [hempty]
    rfl

/-- Witness of C15: the running MIMO controller, whose first pipe leads to an
empty queue and whose second pipe leads to no queue, and a candidate that
changes the volume and the stream. The message pushed carries the keys
"volume" and "streamIndex" and a payload that holds volume 2 and stream 1. -/
theorem applySettings_fanout_witness :
    mimoController.m_settings.activeProfile = some scenarioProfile0 ∧
    volumeCandidate.activeProfile = some scenarioProfile0 ∧
    (mimoController.m_running = true → mimoController.m_basebandSink ≠ none) ∧
    (applySettings mimoController volumeCandidate false).map
      (fun self1 => self1.settingsPipes) =
      some [⟨some [⟨["volume", "streamIndex"],
            { direction := 0
              originatorChannelIndex := 0
              originatorDeviceSetIndex := 2
              channelType := "WDSPRx"
              ssbDemodSettings := { volume := some 2, streamIndex := some 1 } },
            false⟩]⟩,
        ⟨none⟩] ∧
    ∃ self1 keys payload,
      applySettings mimoController volumeCandidate false = some self1 ∧
      self1.m_settings = volumeCandidate ∧
      reverseAPIKeys mimoController volumeCandidate false = some keys ∧
      webapiFormatChannelSettings mimoController keys volumeCandidate false = some payload ∧
      self1.settingsPipes =
        mimoController.settingsPipes.map (pushToPipe ⟨keys, payload, false⟩) ∧
      self1.settingsPipes.length = mimoController.settingsPipes.length ∧
      (∀ queues : List (List MsgChannelSettings),
        mimoController.settingsPipes = queues.map (fun queue => ⟨some queue⟩) →
        self1.settingsPipes =
          queues.map (fun queue => ⟨some (queue ++ [⟨keys, payload, false⟩])⟩)) ∧
      (mimoController.settingsPipes = [] → self1.settingsPipes = []) ∧
      payload.direction = 0 ∧
      payload.originatorChannelIndex = mimoController.m_indexInDeviceSet ∧
      payload.originatorDeviceSetIndex = mimoController.m_deviceAPI.deviceSetIndex ∧
      payload.channelType = m_channelId ∧
      payload.ssbDemodSettings.inputFrequencyOffset =
        (if (keys.contains "inputFrequencyOffset" || false) = true then some volumeCandidate.m_inputFrequencyOffset else none) ∧
      payload.ssbDemodSettings.spanLog2 =
        (if (keys.contains "spanLog2" || false) = true then some scenarioProfile0.m_spanLog2 else none) ∧
      payload.ssbDemodSettings.rfBandwidth =
        (if (keys.contains "rfBandwidth" || false) = true then some scenarioProfile0.m_highCutoff else none) ∧
      payload.ssbDemodSettings.volume =
        (if (keys.contains "volume" || false) = true then some volumeCandidate.m_volume else none) ∧
      payload.ssbDemodSettings.audioBinaural =
        (if (keys.contains "audioBinaural" || false) = true then some (if volumeCandidate.m_audioBinaural = true then 1 else 0) else none) ∧
      payload.ssbDemodSettings.audioFlipChannels =
        (if (keys.contains "audioFlipChannels" || false) = true then some (if volumeCandidate.m_audioFlipChannels = true then 1 else 0) else none) ∧
      payload.ssbDemodSettings.dsb =
        (if (keys.contains "dsb" || false) = true then some (if volumeCandidate.m_dsb = true then 1 else 0) else none) ∧
      payload.ssbDemodSettings.audioMute =
        (if (keys.contains "audioMute" || false) = true then some (if volumeCandidate.m_audioMute = true then 1 else 0) else none) ∧
      payload.ssbDemodSettings.agc =
        (if (keys.contains "agc" || false) = true then some (if volumeCandidate.m_agc = true then 1 else 0) else none) ∧
      payload.ssbDemodSettings.rgbColor =
        (if (keys.contains "rgbColor" || false) = true then some volumeCandidate.m_rgbColor else none) ∧
      payload.ssbDemodSettings.title =
        (if (keys.contains "title" || false) = true then some volumeCandidate.m_title else none) ∧
      payload.ssbDemodSettings.audioDeviceName =
        (if (keys.contains "audioDeviceName" || false) = true then some volumeCandidate.m_audioDeviceName else none) ∧
      payload.ssbDemodSettings.streamIndex =
        (if (keys.contains "streamIndex" || false) = true then some volumeCandidate.m_streamIndex else none) ∧
      payload.ssbDemodSettings.channelMarker =
        (if (keys.contains "channelMarker" || false) = true then volumeCandidate.m_channelMarker
         else none) ∧
      payload.ssbDemodSettings.rollupState =
        (if (keys.contains "rollupState" || false) = true then volumeCandidate.m_rollupState
         else none) ∧
      payload.ssbDemodSettings.useReverseApi = none ∧
      payload.ssbDemodSettings.reverseApiAddress = none ∧
      payload.ssbDemodSettings.reverseApiPort = none ∧
      payload.ssbDemodSettings.reverseApiDeviceIndex = none ∧
      payload.ssbDemodSettings.reverseApiChannelIndex = none ∧
      (false = true →
        payload.ssbDemodSettings.filterIndex = some volumeCandidate.m_profileIndex ∧
        payload.ssbDemodSettings.spectrumConfig = volumeCandidate.m_spectrumGUI) ∧
      (false = false → keys.contains "fftWindow" = false →
        payload.ssbDemodSettings.lowCutoff =
          (if keys.contains "lowCutoff" = true then some scenarioProfile0.m_lowCutoff else none)) :=
  ⟨rfl, rfl, by decide, by decide,
    applySettings_fanout mimoController volumeCandidate false
      scenarioProfile0 scenarioProfile0 rfl rfl (by decide)⟩

/-! ## Order of the key list (lines 276-331) -/

theorem appendIf_sublist (cond : Bool) (key : String) (keys all : List String)
    (h : keys.Sublist all) : (appendIf cond key keys).Sublist (all ++ [key]) := by
  unfold appendIf
  split
  · exact List.Sublist.append h (List.Sublist.refl _)
  · exact h.trans (List.sublist_append_left _ _)

/-- C17: for snapshots whose profile index is in range and either value of
`force`, the key list computed by `applySettings` has no duplicate and is a
subsequence of the declaration order inputFrequencyOffset, filterIndex,
spanLog2, rfBandwidth, lowCutoff, fftWindow, volume, audioDeviceName,
audioBinaural, audioFlipChannels, dsb, audioMute, agc, streamIndex. -/
theorem reverseAPIKeys_order (self : WDSPRx) (settings : WDSPRxSettings) (force : Bool)
    (hcur : self.m_settings.m_profileIndex < self.m_settings.m_profiles.length)
    (hnew : settings.m_profileIndex < settings.m_profiles.length) :
    ∃ keys, reverseAPIKeys self settings force = some keys ∧
      keys.Nodup ∧
      keys.Sublist ["inputFrequencyOffset", "filterIndex", "spanLog2", "rfBandwidth",
        "lowCutoff", "fftWindow", "volume", "audioDeviceName", "audioBinaural",
        "audioFlipChannels", "dsb", "audioMute", "agc", "streamIndex"] := by
  simp only [reverseAPIKeys, detectKeys, activeProfile_isSome _ hcur, activeProfile_isSome _ hnew,
    streamIndexBlock_snd, Option.pure_def, Option.bind_eq_bind, Option.some_bind]
  have hsub : ∀ keys : List String,
      keys.Sublist ([] ++ ["inputFrequencyOffset"] ++ ["filterIndex"] ++ ["spanLog2"] ++
        ["rfBandwidth"] ++ ["lowCutoff"] ++ ["fftWindow"] ++ ["volume"] ++ ["audioDeviceName"] ++
        ["audioBinaural"] ++ ["audioFlipChannels"] ++ ["dsb"] ++ ["audioMute"] ++ ["agc"] ++
        ["streamIndex"]) →
      keys.Sublist ["inputFrequencyOffset", "filterIndex", "spanLog2", "rfBandwidth",
        "lowCutoff", "fftWindow", "volume", "audioDeviceName", "audioBinaural",
        "audioFlipChannels", "dsb", "audioMute", "agc", "streamIndex"] := fun _ h => h
  refine ⟨_, rfl, ?_, ?_⟩
  · refine List.Nodup.sublist (hsub _ ?_) (by decide)
    repeat apply appendIf_sublist
    exact List.Sublist.refl _
  · apply hsub
    repeat apply appendIf_sublist
    exact List.Sublist.refl _

/-- Witness of C17: the scenario controller and a candidate that switches
profile and stream. -/
theorem reverseAPIKeys_order_witness :
    scenarioController.m_settings.m_profileIndex <
      scenarioController.m_settings.m_profiles.length ∧
    mimoCandidate.m_profileIndex < mimoCandidate.m_profiles.length ∧
    ∃ keys, reverseAPIKeys scenarioController mimoCandidate false = some keys ∧
      keys.Nodup ∧
      keys.Sublist ["inputFrequencyOffset", "filterIndex", "spanLog2", "rfBandwidth",
        "lowCutoff", "fftWindow", "volume", "audioDeviceName", "audioBinaural",
        "audioFlipChannels", "dsb", "audioMute", "agc", "streamIndex"] :=
  ⟨by decide, by decide,
    reverseAPIKeys_order scenarioController mimoCandidate false (by decide) (by decide)⟩

/-! ## Condition of the visualizer update (lines 333-342) -/

/-- C18: `applySettings` pushes a configuration message to the visualizer
exactly when `force` is set, or the DSB flag of the candidate differs from the
current one, or the high cutoff or the low cutoff of the active profile of the
candidate differs from that of the active profile of the current snapshot. The
message pushed has `m_ssb` = not DSB of the candidate and `m_usb` = (low cutoff
< high cutoff) of the active profile of the candidate, the rest of the
spectrum settings being the one held by the visualizer, and its force flag is
false. -/
theorem applySettings_spectrum (self : WDSPRx) (settings : WDSPRxSettings) (force : Bool)
    (cur new : WDSPRxProfile)
    (hcur : self.m_settings.activeProfile = some cur)
    (hnew : settings.activeProfile = some new)
    (hsink : self.m_running = true → self.m_basebandSink ≠ none) :
    ∃ self1, applySettings self settings force = some self1 ∧
      self1.m_spectrumVis.m_settings = self.m_spectrumVis.m_settings ∧
      ((force = true ∨ settings.m_dsb ≠ self.m_settings.m_dsb ∨
          new.m_highCutoff ≠ cur.m_highCutoff ∨ new.m_lowCutoff ≠ cur.m_lowCutoff) →
        self1.m_spectrumVis.inputMessageQueue = self.m_spectrumVis.inputMessageQueue ++
          [⟨{ m_ssb := !settings.m_dsb
              m_usb := decide (new.m_lowCutoff < new.m_highCutoff)
              rest := self.m_spectrumVis.m_settings.rest }, false⟩]) ∧
      (¬ (force = true ∨ settings.m_dsb ≠ self.m_settings.m_dsb ∨
          new.m_highCutoff ≠ cur.m_highCutoff ∨ new.m_lowCutoff ≠ cur.m_lowCutoff) →
        self1.m_spectrumVis.inputMessageQueue = self.m_spectrumVis.inputMessageQueue) := by
  obtain ⟨keys, payloadR, payloadP, -, -, -, h⟩ :=
    applySettings_eq self settings force cur new hcur hnew hsink
  have hiff : spectrumUpdateNeeded self.m_settings settings cur new force = true ↔
      (force = true ∨ settings.m_dsb ≠ self.m_settings.m_dsb ∨
        new.m_highCutoff ≠ cur.m_highCutoff ∨ new.m_lowCutoff ≠ cur.m_lowCutoff) := by
    simp only [spectrumUpdateNeeded, Bool.or_eq_true, bne_iff_ne, ne_eq]
    tauto
  refine ⟨_, h, rfl, ?_, ?_⟩
  · intro hc
    show (if _ then _ else _) = _
    rw [if_pos (hiff.mpr hc)]
  · intro hc
    show (if _ then _ else _) = _
    rw [if_neg (fun hn => hc (hiff.mp hn))]

/-- Witness of C18: the scenario switch of profile pushes one message; the
same snapshot applied again without force pushes none. -/
theorem applySettings_spectrum_witness :
    scenarioController.m_settings.activeProfile = some scenarioProfile0 ∧
    scenarioS1.activeProfile = some scenarioProfile1 ∧
    (applySettings scenarioController scenarioS1 false).map
      (fun self1 => self1.m_spectrumVis.inputMessageQueue) =
      some [⟨{ m_ssb := true, m_usb := true, rest := 0 }, false⟩] ∧
    (applySettings scenarioController scenarioS0 false).map
      (fun self1 => self1.m_spectrumVis.inputMessageQueue) = some [] ∧
    ∃ self1, applySettings scenarioController scenarioS1 false = some self1 ∧
      self1.m_spectrumVis.m_settings = scenarioController.m_spectrumVis.m_settings ∧
      ((false = true ∨ scenarioS1.m_dsb ≠ scenarioController.m_settings.m_dsb ∨
          scenarioProfile1.m_highCutoff ≠ scenarioProfile0.m_highCutoff ∨
          scenarioProfile1.m_lowCutoff ≠ scenarioProfile0.m_lowCutoff) →
        self1.m_spectrumVis.inputMessageQueue =
          scenarioController.m_spectrumVis.inputMessageQueue ++
          [⟨{ m_ssb := !scenarioS1.m_dsb
              m_usb := decide (scenarioProfile1.m_lowCutoff < scenarioProfile1.m_highCutoff)
              rest := scenarioController.m_spectrumVis.m_settings.rest }, false⟩]) ∧
      (¬ (false = true ∨ scenarioS1.m_dsb ≠ scenarioController.m_settings.m_dsb ∨
          scenarioProfile1.m_highCutoff ≠ scenarioProfile0.m_highCutoff ∨
          scenarioProfile1.m_lowCutoff ≠ scenarioProfile0.m_lowCutoff) →
        self1.m_spectrumVis.inputMessageQueue =
          scenarioController.m_spectrumVis.inputMessageQueue) :=
  ⟨rfl, rfl, by decide, by decide,
    applySettings_spectrum scenarioController scenarioS1 false
      scenarioProfile0 scenarioProfile1 rfl rfl (by decide)⟩

/-! ## Web API update (lines 435-537) -/

/-- C16, evaluation at the failing input: the scenario controller, whose
profile index 0 is in range of its two profiles, receives a PATCH with the key
"filterIndex" and the value 2. `webapiUpdateChannelSettings` stores 2 as
profile index although there are two profiles; `webapiSettingsPutPatch` then
reads the profile array past its end (no defined result), and so does
`applySettings` on the snapshot produced. -/
theorem webapiSettingsPutPatch_filterIndex_out_of_range :
    scenarioController.m_settings.m_profileIndex <
      scenarioController.m_settings.m_profiles.length ∧
    (webapiUpdateChannelSettings scenarioController.m_settings ["filterIndex"]
      filterIndexRequest).map (fun settings =>
        (settings.m_profileIndex, settings.m_profiles.length)) = some (2, 2) ∧
    webapiSettingsPutPatch scenarioController false ["filterIndex"] filterIndexRequest = none ∧
    (webapiUpdateChannelSettings scenarioController.m_settings ["filterIndex"]
      filterIndexRequest).bind (fun settings =>
        applySettings scenarioController settings false) = none := by
  decide

/-- C19, evaluation at the failing input: the key list ["fftWindow"] with a
request that carries FFT window 2 leaves the snapshot S0 unchanged, its active
profile keeping FFT window 4; and the patch formatted from a snapshot whose
active FFT window is 2, applied with the same key list, leaves S0 unchanged
as well. -/
theorem webapiUpdateChannelSettings_fftWindow_ignored :
    fftWindowRequest.getFftWindow = 2 ∧
    webapiUpdateChannelSettings scenarioS0 ["fftWindow"] fftWindowRequest = some scenarioS0 ∧
    scenarioS0.activeProfile.map (fun profile => profile.m_fftWindow) = some 4 ∧
    fftSource.activeProfile.map (fun profile => profile.m_fftWindow) = some 2 ∧
    (webapiFormatChannelSettings scenarioController ["fftWindow"] fftSource false).bind
      (fun payload =>
        webapiUpdateChannelSettings scenarioS0 ["fftWindow"] payload.ssbDemodSettings) =
      some scenarioS0 := by
  decide

/-! ## Lifecycle invariant (lines 54-62, 135-193, 206-214, 344-348) -/

theorem applySettings_defined (self next : WDSPRx) (settings : WDSPRxSettings) (force : Bool)
    (h : applySettings self settings force = some next) :
    ∃ cur new, self.m_settings.activeProfile = some cur ∧ settings.activeProfile = some new ∧
      (self.m_running = true → self.m_basebandSink ≠ none) := by
  rw [applySettings_unfold] at h
  cases hnew : settings.activeProfile with
  | none => simp [hnew] at h
  | some new =>
    cases hcur : self.m_settings.activeProfile with
    | none => simp [hnew, detectKeys, hcur] at h
    | some cur =>
      refine ⟨cur, new, rfl, rfl, ?_⟩
      intro hr hs
      obtain ⟨keys0, hk0⟩ := detectKeys_isSome self.m_settings settings force cur new hcur hnew
      rw [hnew, hk0] at h
      simp only [Option.some_bind] at h
      rw [spectrumBlock_eq _ settings force cur new
        (by rw [streamIndexBlock_fst]; exact hcur) hnew] at h
      simp only [Option.some_bind] at h
      have hb : ∀ s : WDSPRx, s.m_running = true → s.m_basebandSink = none →
          basebandBlock s settings force = none := by
        intro s h1 h2
        simp [basebandBlock, h1, h2]
      rw [hb _ (by rw [streamIndexBlock_fst]; exact hr)
        (by rw [streamIndexBlock_fst]; exact hs)] at h
      simp at h

theorem applySettings_lifecycle (self next : WDSPRx) (settings : WDSPRxSettings) (force : Bool)
    (h : applySettings self settings force = some next) :
    next.m_running = self.m_running ∧ next.m_thread = self.m_thread ∧
      next.m_guiMessageQueue = self.m_guiMessageQueue ∧
      (self.m_basebandSink ≠ none → next.m_basebandSink ≠ none) := by
  obtain ⟨cur, new, hcur, hnew, hsink⟩ := applySettings_defined self next settings force h
  obtain ⟨keys, payloadR, payloadP, -, -, -, h1⟩ :=
    applySettings_eq self settings force cur new hcur hnew hsink
  rw [h1] at h
  have hnext := (Option.some.inj h).symm
  subst hnext
  refine ⟨?_, ?_, ?_, ?_⟩
  · show (streamIndexBlock self settings []).1.m_running = _
    rw [streamIndexBlock_fst]
  · show (streamIndexBlock self settings []).1.m_thread = _
    rw [streamIndexBlock_fst]
  · show (streamIndexBlock self settings []).1.m_guiMessageQueue = _
    rw [streamIndexBlock_fst]
  · intro hs
    show (if _ then _ else _) ≠ none
    split
    · cases hq : self.m_basebandSink with
      | none => exact absurd hq hs
      | some sink => simp
    · exact hs

theorem workerPresent_of_eq (self next : WDSPRx) (hinv : workerPresent self)
    (hrun : next.m_running = self.m_running) (hthread : next.m_thread = self.m_thread)
    (hsink : self.m_basebandSink ≠ none → next.m_basebandSink ≠ none) :
    workerPresent next := by
  intro hr
  rw [hrun] at hr
  exact ⟨hsink (hinv hr).1, hthread.trans (hinv hr).2⟩

theorem sendSampleRateToDemodAnalyzer_lifecycle (self next : WDSPRx)
    (h : sendSampleRateToDemodAnalyzer self = some next) :
    next.m_running = self.m_running ∧ next.m_thread = self.m_thread ∧
      next.m_basebandSink = self.m_basebandSink := by
  by_cases hl0 : self.reportPipes.length > 0
  · cases hl : sendSampleRateLoop self self.reportPipes with
    | none => simp [sendSampleRateToDemodAnalyzer, hl0, hl] at h
    | some pipes =>
      simp only [sendSampleRateToDemodAnalyzer, hl0, hl, if_true, Option.pure_def,
        Option.bind_eq_bind, Option.some_bind, Option.some.injEq] at h
      subst h
      exact ⟨rfl, rfl, rfl⟩
  · simp only [sendSampleRateToDemodAnalyzer, hl0, if_false, Option.some.injEq] at h
    subst h
    exact ⟨rfl, rfl, rfl⟩

theorem handleMessage_lifecycle (self next : WDSPRx) (cmd : Message) (handled : Bool)
    (h : handleMessage self cmd = some (handled, next)) :
    next.m_running = self.m_running ∧ next.m_thread = self.m_thread ∧
      (self.m_basebandSink ≠ none → next.m_basebandSink ≠ none) := by
  cases cmd with
  | MsgConfigureWDSPRx settings force =>
    cases ha : applySettings self settings force with
    | none => simp [handleMessage, ha] at h
    | some s1 =>
      simp only [handleMessage, ha, Option.pure_def, Option.bind_eq_bind, Option.some_bind,
        Option.some.injEq, Prod.mk.injEq] at h
      obtain ⟨-, hnext⟩ := h
      subst hnext
      obtain ⟨h1, h2, -, h4⟩ := applySettings_lifecycle self s1 settings force ha
      exact ⟨h1, h2, h4⟩
  | DSPSignalNotification sampleRate =>
    cases hr : self.m_running
    · cases hg : self.m_guiMessageQueue <;>
        simp only [handleMessage, hr, hg, Option.pure_def, Option.bind_eq_bind,
          Option.some_bind, Option.some.injEq, Prod.mk.injEq, Bool.false_eq_true,
          if_false] at h <;>
        (obtain ⟨-, hnext⟩ := h
         subst hnext
         exact ⟨by simp [hr], rfl, fun hs => hs⟩)
    · cases hq : self.m_basebandSink with
      | none => simp [handleMessage, hr, hq] at h
      | some sink =>
        cases hg : self.m_guiMessageQueue <;>
          simp only [handleMessage, hr, hq, hg, Option.pure_def, Option.bind_eq_bind,
            Option.some_bind, Option.some.injEq, Prod.mk.injEq, if_true] at h <;>
          (obtain ⟨-, hnext⟩ := h
           subst hnext
           exact ⟨by simp [hr], rfl, fun _ => by simp⟩)
  | MsgChannelDemodQuery =>
    cases ha : sendSampleRateToDemodAnalyzer self with
    | none => simp [handleMessage, ha] at h
    | some s1 =>
      simp only [handleMessage, ha, Option.pure_def, Option.bind_eq_bind, Option.some_bind,
        Option.some.injEq, Prod.mk.injEq] at h
      obtain ⟨-, hnext⟩ := h
      subst hnext
      obtain ⟨h1, h2, h3⟩ := sendSampleRateToDemodAnalyzer_lifecycle self s1 ha
      exact ⟨h1, h2, fun hs => by rw [h3]; exact hs⟩
  | other =>
    simp only [handleMessage, Option.some.injEq, Prod.mk.injEq] at h
    obtain ⟨-, hnext⟩ := h
    subst hnext
    exact ⟨rfl, rfl, fun hs => hs⟩

theorem feed_lifecycle (self next : WDSPRx) (samples : List (Int × Int)) (positiveOnly : Bool)
    (h : feed self samples positiveOnly = some next) :
    next.m_running = self.m_running ∧ next.m_thread = self.m_thread ∧
      (self.m_basebandSink ≠ none → next.m_basebandSink ≠ none) := by
  cases hr : self.m_running
  · simp only [feed, hr, Bool.false_eq_true, if_false, Option.some.injEq] at h
    subst h
    exact ⟨by simp [hr], rfl, fun hs => hs⟩
  · cases hq : self.m_basebandSink with
    | none => simp [feed, hr, hq] at h
    | some sink =>
      simp only [feed, hr, hq, if_true, Option.some.injEq] at h
      subst h
      exact ⟨by simp [hr], rfl, fun _ => by simp⟩

theorem setCenterFrequency_lifecycle (self next : WDSPRx) (frequency : Int)
    (h : setCenterFrequency self frequency = some next) :
    next.m_running = self.m_running ∧ next.m_thread = self.m_thread ∧
      (self.m_basebandSink ≠ none → next.m_basebandSink ≠ none) := by
  unfold setCenterFrequency at h
  cases ha : applySettings self { self.m_settings with m_inputFrequencyOffset := frequency }
    false with
  | none => simp [ha] at h
  | some s1 =>
    obtain ⟨h1, h2, -, h4⟩ := applySettings_lifecycle self s1 _ false ha
    cases hg : s1.m_guiMessageQueue <;>
      simp only [ha, hg, Option.pure_def, Option.bind_eq_bind, Option.some_bind,
        Option.some.injEq] at h <;>
      (subst h
       exact ⟨h1, h2, h4⟩)

theorem construct_stopped (m_deviceAPI : DeviceAPI) (m_settings : WDSPRxSettings)
    (m_spectrumVis : SpectrumVis) (indexInDeviceSet : Int) (self : WDSPRx)
    (h : construct m_deviceAPI m_settings m_spectrumVis indexInDeviceSet = some self) :
    self.m_running = false := by
  unfold construct at h
  simp only [Option.pure_def, Option.bind_eq_bind] at h
  cases ha : applySettings
      { m_settings := m_settings, m_running := false, m_basebandSink := none,
        m_basebandSampleRate := 0, m_spectrumVis := m_spectrumVis, m_deviceAPI := m_deviceAPI,
        m_indexInDeviceSet := indexInDeviceSet, m_inputMessageQueue := [],
        m_guiMessageQueue := none, settingsPipes := [], networkRequests := [], emitted := [],
        m_thread := none } m_settings true with
  | none =>
    rw [ha] at h
    simp at h
  | some s1 =>
    rw [ha] at h
    simp only [Option.some_bind, Option.some.injEq] at h
    subst h
    exact (applySettings_lifecycle _ s1 _ true ha).1

theorem stop_stopped (self next : WDSPRx) (hinv : workerPresent self)
    (h : stop self = some next) : workerPresent next := by
  cases hr : self.m_running
  · simp only [stop, hr, Bool.not_false, if_true, Option.some.injEq] at h
    subst h
    exact hinv
  · cases ht : self.m_thread with
    | none => simp [stop, hr, ht] at h
    | some thread =>
      simp only [stop, hr, ht, Bool.not_true, Bool.false_eq_true, if_false,
        Option.some.injEq] at h
      subst h
      intro hrun
      simp at hrun

theorem start_workerPresent (self : WDSPRx) (hinv : workerPresent self) :
    workerPresent (start self) := by
  cases hr : self.m_running
  · rw [start_of_stopped self hr]
    intro _
    exact ⟨by simp, rfl⟩
  · rw [start_of_running self hr]
    exact hinv

theorem reachable_workerPresent (self : WDSPRx) (h : Reachable self) : workerPresent self := by
  induction h with
  | byConstruct m_deviceAPI m_settings m_spectrumVis indexInDeviceSet self hc =>
    intro hr
    rw [construct_stopped _ _ _ _ self hc] at hr
    simp at hr
  | byStart self _ ih => exact start_workerPresent self ih
  | byStop self next _ hs ih => exact stop_stopped self next ih hs
  | byApplySettings self next settings force _ ha ih =>
    obtain ⟨h1, h2, -, h4⟩ := applySettings_lifecycle self next settings force ha
    exact workerPresent_of_eq self next ih h1 h2 h4
  | byHandleMessage self next cmd handled _ hm ih =>
    obtain ⟨h1, h2, h3⟩ := handleMessage_lifecycle self next cmd handled hm
    exact workerPresent_of_eq self next ih h1 h2 h3
  | byFeed self next samples positiveOnly _ hf ih =>
    obtain ⟨h1, h2, h3⟩ := feed_lifecycle self next samples positiveOnly hf
    exact workerPresent_of_eq self next ih h1 h2 h3
  | bySetCenterFrequency self next frequency _ hf ih =>
    obtain ⟨h1, h2, h3⟩ := setCenterFrequency_lifecycle self next frequency hf
    exact workerPresent_of_eq self next ih h1 h2 h3

/-- C20: in every reachable state, when the running flag is set a worker is
held and its thread is running; hence the calls made through `m_basebandSink`
by `feed`, by the forwarding block of `applySettings` and by `handleMessage` on
a signal notification all have a defined result. -/
theorem reachable_running_has_worker (self : WDSPRx) (hreach : Reachable self) :
    (self.m_running = true →
      self.m_basebandSink ≠ none ∧ self.m_thread = some { isRunning := true }) ∧
    (∀ samples positiveOnly, feed self samples positiveOnly ≠ none) ∧
    (∀ settings force, basebandBlock self settings force ≠ none) ∧
    (∀ sampleRate, handleMessage self (Message.DSPSignalNotification sampleRate) ≠ none) := by
  have hinv := reachable_workerPresent self hreach
  refine ⟨hinv, ?_, ?_, ?_⟩
  · intro samples positiveOnly
    cases hr : self.m_running
    · simp [feed, hr]
    · cases hq : self.m_basebandSink with
      | none => exact absurd hq (hinv hr).1
      | some sink => simp [feed, hr, hq]
  · intro settings force
    cases hr : self.m_running
    · simp [basebandBlock, hr]
    · cases hq : self.m_basebandSink with
      | none => exact absurd hq (hinv hr).1
      | some sink => simp [basebandBlock, hr, hq]
  · intro sampleRate
    cases hr : self.m_running
    · cases hg : self.m_guiMessageQueue <;> simp [handleMessage, hr, hg]
    · cases hq : self.m_basebandSink with
      | none => exact absurd hq (hinv hr).1
      | some sink => cases hg : self.m_guiMessageQueue <;> simp [handleMessage, hr, hq, hg]

/-- Witness of C20: the controller constructed on the scenario device, then
started. -/
theorem reachable_running_has_worker_witness :
    construct scenarioDeviceAPI scenarioS0 scenarioSpectrumVis 0 = some constructedController ∧
    Reachable (start constructedController) ∧
    (start constructedController).m_running = true ∧
    ((start constructedController).m_running = true →
      (start constructedController).m_basebandSink ≠ none ∧
      (start constructedController).m_thread = some { isRunning := true }) ∧
    (∀ samples positiveOnly, feed (start constructedController) samples positiveOnly ≠ none) ∧
    (∀ settings force, basebandBlock (start constructedController) settings force ≠ none) ∧
    (∀ sampleRate,
      handleMessage (start constructedController) (Message.DSPSignalNotification sampleRate) ≠
        none) :=
  ⟨by decide,
    Reachable.byStart _ (Reachable.byConstruct scenarioDeviceAPI scenarioS0 scenarioSpectrumVis 0
      constructedController (by decide)),
    by decide,
    reachable_running_has_worker (start constructedController)
      (Reachable.byStart _ (Reachable.byConstruct scenarioDeviceAPI scenarioS0
        scenarioSpectrumVis 0 constructedController (by decide)))⟩

/-! ## Applying the same snapshot again (lines 248-368) -/

theorem applySettings_unchanged (self : WDSPRx) (settings : WDSPRxSettings)
    (new : WDSPRxProfile)
    (hsame : self.m_settings = settings)
    (hnew : settings.activeProfile = some new)
    (hsink : self.m_running = true → self.m_basebandSink ≠ none) :
    ∃ next payload, applySettings self settings false = some next ∧
      reverseAPIKeys self settings false = some [] ∧
      next.m_deviceAPI = self.m_deviceAPI ∧
      next.emitted = self.emitted ∧
      next.m_spectrumVis = self.m_spectrumVis ∧
      next.networkRequests = self.networkRequests ++
        (if settings.m_useReverseAPI = true then
          [⟨[], false, settings.m_reverseAPIAddress, settings.m_reverseAPIPort,
            settings.m_reverseAPIDeviceIndex, settings.m_reverseAPIChannelIndex, payload⟩]
         else []) ∧
      next.m_settings = settings := by
  have hcur : self.m_settings.activeProfile = some new := by rw [hsame]; exact hnew
  have hidx : self.m_settings.m_profileIndex < self.m_settings.m_profiles.length := by
    have h := hcur
    unfold WDSPRxSettings.activeProfile at h
    by_contra hlt
    rw [List.getElem?_eq_none (Nat.le_of_not_lt hlt)] at h
    exact Option.noConfusion h
  obtain ⟨keys, payloadR, payloadP, hkeys, -, -, h⟩ :=
    applySettings_eq self settings false new new hcur hnew hsink
  have hempty : keys = [] := by
    have h1 : reverseAPIKeys self settings false = some [] := by
      rw [← hsame]
      simp [reverseAPIKeys, detectKeys, activeProfile_isSome _ hidx, streamIndexBlock, appendIf]
    exact Option.some.inj (hkeys.symm.trans h1)
  subst hempty
  have hfull : fullUpdate self.m_settings settings = false := by
    rw [hsame]
    simp [fullUpdate]
  have hneed : spectrumUpdateNeeded self.m_settings settings new new false = false := by
    rw [hsame]
    simp [spectrumUpdateNeeded]
  have hstream : (streamIndexBlock self settings []).1 = self := by
    rw [streamIndexBlock_fst, hsame]
    rcases self with ⟨⟨⟩, _, _, _, _, ⟨⟩, _⟩
    simp_all
  refine ⟨_, payloadR, h, hkeys, ?_, ?_, ?_, ?_, rfl⟩
  · show (streamIndexBlock self settings []).1.m_deviceAPI = _
    rw [hstream]
  · show (streamIndexBlock self settings []).1.emitted = _
    rw [hstream]
  · show ({ self.m_spectrumVis with inputMessageQueue := _ } : SpectrumVis) = _
    rw [hneed]
    rfl
  · show (if _ then _ else _) = _
    rw [hfull]
    split <;> simp

/-- C21: in a state where `applySettings(c, f)` is defined, calling
`applySettings(c, false)` right after it is defined as well; the key list it
computes is empty, the device API receives no call, no signal is emitted,
nothing is pushed to the visualizer, the request sent when the reverse API is
enabled has an empty key list and a full-update flag that is not set, and the
canonical snapshot is still `c`. -/
theorem applySettings_twice (self : WDSPRx) (settings : WDSPRxSettings) (force : Bool)
    (cur new : WDSPRxProfile)
    (hcur : self.m_settings.activeProfile = some cur)
    (hnew : settings.activeProfile = some new)
    (hsink : self.m_running = true → self.m_basebandSink ≠ none) :
    ∃ first second payload,
      applySettings self settings force = some first ∧
      applySettings first settings false = some second ∧
      reverseAPIKeys first settings false = some [] ∧
      second.m_deviceAPI = first.m_deviceAPI ∧
      second.emitted = first.emitted ∧
      second.m_spectrumVis = first.m_spectrumVis ∧
      second.networkRequests = first.networkRequests ++
        (if settings.m_useReverseAPI = true then
          [⟨[], false, settings.m_reverseAPIAddress, settings.m_reverseAPIPort,
            settings.m_reverseAPIDeviceIndex, settings.m_reverseAPIChannelIndex, payload⟩]
         else []) ∧
      second.m_settings = settings := by
  obtain ⟨keys, payloadR, payloadP, -, -, -, h⟩ :=
    applySettings_eq self settings force cur new hcur hnew hsink
  obtain ⟨hrun, -, -, hkeep⟩ := applySettings_lifecycle self _ settings force h
  obtain ⟨second, payload, h2, hk, hd, he, hv, hn, hs⟩ :=
    applySettings_unchanged _ settings new rfl hnew
      (fun hr => hkeep (hsink (hrun ▸ hr)))
  exact ⟨_, second, payload, h, h2, hk, hd, he, hv, hn, hs⟩

/-- Witness of C21: the running MIMO controller and a candidate that switches
profile and stream, applied with force and then again without. -/
theorem applySettings_twice_witness :
    mimoController.m_settings.activeProfile = some scenarioProfile0 ∧
    mimoCandidate.activeProfile = some scenarioProfile1 ∧
    (mimoController.m_running = true → mimoController.m_basebandSink ≠ none) ∧
    ∃ first second payload,
      applySettings mimoController mimoCandidate true = some first ∧
      applySettings first mimoCandidate false = some second ∧
      reverseAPIKeys first mimoCandidate false = some [] ∧
      second.m_deviceAPI = first.m_deviceAPI ∧
      second.emitted = first.emitted ∧
      second.m_spectrumVis = first.m_spectrumVis ∧
      second.networkRequests = first.networkRequests ++
        (if mimoCandidate.m_useReverseAPI = true then
          [⟨[], false, mimoCandidate.m_reverseAPIAddress, mimoCandidate.m_reverseAPIPort,
            mimoCandidate.m_reverseAPIDeviceIndex, mimoCandidate.m_reverseAPIChannelIndex,
            payload⟩]
         else []) ∧
      second.m_settings = mimoCandidate :=
  ⟨rfl, rfl, by decide,
    applySettings_twice mimoController mimoCandidate true scenarioProfile0 scenarioProfile1
      rfl rfl (by decide)⟩

/-! ## Differences the key list does not report (lines 276-331, 755-766) -/

theorem webapiFormatChannelSettings_nil (self : WDSPRx) (settings : WDSPRxSettings) :
    webapiFormatChannelSettings self [] settings false = some (emptyPayload self) := by
  simp [webapiFormatChannelSettings, webapiFormatStatements, runStatements, whenKey,
    emptyPayload]

theorem applySettings_empty_keys (self : WDSPRx) (settings : WDSPRxSettings)
    (cur new : WDSPRxProfile)
    (hcur : self.m_settings.activeProfile = some cur)
    (hnew : settings.activeProfile = some new)
    (hsink : self.m_running = true → self.m_basebandSink ≠ none)
    (hkeys : reverseAPIKeys self settings false = some [])
    (hfull : fullUpdate self.m_settings settings = false) :
    ∃ next, applySettings self settings false = some next ∧
      next.m_settings = settings ∧
      next.networkRequests = self.networkRequests ++
        (if settings.m_useReverseAPI = true then
          [⟨[], false, settings.m_reverseAPIAddress, settings.m_reverseAPIPort,
            settings.m_reverseAPIDeviceIndex, settings.m_reverseAPIChannelIndex,
            emptyPayload self⟩]
         else []) ∧
      next.settingsPipes =
        self.settingsPipes.map (pushToPipe ⟨[], emptyPayload self, false⟩) := by
  obtain ⟨keys, payloadR, payloadP, hk, hR, hP, h⟩ :=
    applySettings_eq self settings false cur new hcur hnew hsink
  have hempty : keys = [] := Option.some.inj (hk.symm.trans hkeys)
  subst hempty
  rw [hfull, Bool.or_false, webapiFormatChannelSettings_nil] at hR
  rw [webapiFormatChannelSettings_nil] at hP
  have hpR := Option.some.inj hR
  have hpP := Option.some.inj hP
  subst hpR
  refine ⟨_, h, rfl, ?_, ?_⟩
  · show (if _ then _ else _) = _
    rw [hfull]
    split <;> simp
  · show self.settingsPipes.map _ = _
    rw [← hpP]

/-- C22: an empty key list with `force = false` does not imply equal
snapshots. The candidate `retitledCandidate` differs from the snapshot held by
the running MIMO controller in its title, its display colour and the FFT
window of the profile that is not active; the key list computed is empty, the
reverse API request (not forced) and the message pushed on the subscriber
queue carry a payload on which no field is set, and the canonical snapshot
becomes the candidate. -/
theorem empty_keys_for_differing_snapshots :
    retitledCandidate ≠ mimoController.m_settings ∧
    retitledCandidate.m_title ≠ mimoController.m_settings.m_title ∧
    retitledCandidate.m_rgbColor ≠ mimoController.m_settings.m_rgbColor ∧
    retitledCandidate.m_profiles ≠ mimoController.m_settings.m_profiles ∧
    reverseAPIKeys mimoController retitledCandidate false = some [] ∧
    ∃ next, applySettings mimoController retitledCandidate false = some next ∧
      next.m_settings = retitledCandidate ∧
      next.networkRequests =
        [⟨[], false, retitledCandidate.m_reverseAPIAddress, retitledCandidate.m_reverseAPIPort,
          retitledCandidate.m_reverseAPIDeviceIndex, retitledCandidate.m_reverseAPIChannelIndex,
          emptyPayload mimoController⟩] ∧
      next.settingsPipes =
        [⟨some [⟨[], emptyPayload mimoController, false⟩]⟩, ⟨none⟩] ∧
      (emptyPayload mimoController).ssbDemodSettings.title = none ∧
      (emptyPayload mimoController).ssbDemodSettings.rgbColor = none ∧
      (emptyPayload mimoController).ssbDemodSettings.fftWindow = none := by
  refine ⟨by decide, by decide, by decide, by decide, by decide, ?_⟩
  obtain ⟨next, h, hs, hn, hp⟩ :=
    applySettings_empty_keys mimoController retitledCandidate scenarioProfile0 scenarioProfile0
      rfl rfl (by decide) (by decide) (by decide)
  exact ⟨next, h, hs, hn, hp, rfl, rfl, rfl⟩

end WDSPRx
